import Mathlib

/-!
Shallow embedding of the `UniversalRemittance` Stylus contract
(`src/src/lib.rs`) and verification of its specification.

Modelling conventions:
* `U256` values are embedded as `Int`.  The deployed contract is compiled in
  release mode, where Rust/`ruint` arithmetic on `U256` wraps modulo `2^256`;
  the wrapping operators of the source are therefore modelled explicitly by
  `uadd`, `umul`, `usub` below.  Subtractions that the source performs only
  after a guard (`current_balance - amount` after the `<` check) or through
  `checked_sub` are modelled by exact `Int` subtraction under the same guard.
* `Address` is embedded as `Nat` (`Address.ZERO` is `0`).
* Storage mappings are total functions with zero-like defaults, matching EVM
  storage semantics.
* The external ERC20 token service is an oracle: each external
  `transfer`/`transfer_from` call site takes an `Option Bool` outcome
  (`none` = the call reverted, `some b` = the call returned `b`).
* Each entry point returns the `Result` together with the contract state as
  mutated by the function body itself.  On an error path the state carries
  exactly the writes performed before the failure: the source performs no
  compensating rollback (documented in the specification, sections 4.3 and 7).
* The execution context (`msg_sender`, `block_timestamp`) is passed as
  explicit arguments.
-/

namespace Remittance

set_option maxRecDepth 8000

/-- The modulus of a 256-bit EVM word, written as a literal: `2 ^ 256`. -/
def wordMod : Int := 115792089237316195423570985008687907853269984665640564039457584007913129639936

/-- The word modulus is `2 ^ 256`. -/
theorem wordMod_eq : wordMod = 2 ^ 256 := by
  norm_num [wordMod]

/-- The word modulus is nonzero. -/
theorem wordMod_ne_zero : wordMod ≠ 0 := by
  norm_num [wordMod]

/-- Wrapping `U256` addition (release-mode `+` on `U256`). -/
def uadd (a b : Int) : Int := (a + b) % wordMod

/-- Wrapping `U256` multiplication (release-mode `*` on `U256`). -/
def umul (a b : Int) : Int := (a * b) % wordMod

/-- Wrapping `U256` subtraction (release-mode `-` on `U256`). -/
def usub (a b : Int) : Int := (a - b) % wordMod

/-- Account addresses, embedded as naturals; `0` is `Address.ZERO`. -/
abbrev Addr := Nat

/-- `UserProfile` storage struct of the source. -/
structure UserProfile where
  name : String
  country : String
  phone_number : String
  is_active : Bool
  total_sent : Int
  total_received : Int
  registration_time : Int
  token_balances : Addr → Int

/-- `Beneficiary` storage struct of the source. -/
structure Beneficiary where
  beneficiary_address : Addr
  name : String
  relationship : String
  amount : Int
  token : Addr
  frequency : Int
  last_payment : Int
  is_active : Bool
  total_sent : Int
deriving DecidableEq

/-- `Payment` storage struct of the source. -/
structure Payment where
  sender : Addr
  recipient : Addr
  amount : Int
  token : Addr
  timestamp : Int
  payment_type : Int
  note : String
  completed : Bool

/-- The `RemittanceErrors` enumeration of the source. -/
inductive RemErr where
  | unauthorized
  | invalidConfiguration
  | userAlreadyRegistered
  | insufficientBalance
  | transferFailed
  | invalidRecipients
  | exceedsLimit
  | contractPaused
  | invalidAmount
  | notSupportedToken
  | frequencyNotMet
  | notRegistered
  | beneficiaryNotFound
  | invalidFrequency
deriving DecidableEq

/-- The `UniversalRemittance` storage of the source. -/
structure RState where
  owner : Addr
  paused : Bool
  treasury : Addr
  platform_fee_percent : Int
  payment_count : Int
  execution_count : Int
  users : Addr → UserProfile
  registered_users : Addr → Bool
  user_beneficiaries : Addr → Int → Beneficiary
  beneficiary_counts : Addr → Int
  payments : Int → Payment
  supported_tokens : Addr → Bool
  daily_limits : Addr → Int
  daily_spent : Addr → Int → Int

/-- Result of a state-mutating entry point: the returned `Result` plus the
state as left behind by the function body. -/
abbrev RemRes := Except RemErr Unit × RState

/-- Outcome of an external ERC20 call: the source treats a revert and a
returned `false` identically, so only `some true` counts as success. -/
def xferOk : Option Bool → Bool
  | some true => true
  | _ => false

/-- Point update of one user's profile (`self.users.setter(u)`). -/
def updUser (s : RState) (u : Addr) (f : UserProfile → UserProfile) : RState :=
  { s with users := fun a => if a = u then f (s.users a) else s.users a }

/-- Point update of one token balance inside a profile
(`profile.token_balances.setter(t).set(v)`). -/
def UserProfile.setBal (p : UserProfile) (t : Addr) (v : Int) : UserProfile :=
  { p with token_balances := fun tk => if tk = t then v else p.token_balances tk }

/-- Point update of one beneficiary record
(`self.user_beneficiaries.setter(u).setter(i)`). -/
def updBen (s : RState) (u : Addr) (i : Int) (f : Beneficiary → Beneficiary) : RState :=
  { s with user_beneficiaries := fun a j =>
      if a = u ∧ j = i then f (s.user_beneficiaries a j) else s.user_beneficiaries a j }

/-- Fee computation shared verbatim by `send_payment` and
`execute_auto_payments`: `(amount * self.platform_fee_percent.get()) / 10000`. -/
def platformFee (feeBps amount : Int) : Int := umul amount feeBps / 10000

/-- Internal `check_daily_limit` of the source. -/
def check_daily_limit (s : RState) (user : Addr) (amount time : Int) : Bool :=
  let daily_limit := s.daily_limits user
  if daily_limit = 0 then true
  else
    let today := time / 86400
    let today_spent := s.daily_spent user today
    decide (uadd today_spent amount ≤ daily_limit)

/-- Internal `update_daily_spent` of the source. -/
def update_daily_spent (s : RState) (user : Addr) (amount time : Int) : RState :=
  let today := time / 86400
  let current_spent := s.daily_spent user today
  { s with daily_spent := fun a d =>
      if a = user ∧ d = today then uadd current_spent amount else s.daily_spent a d }

/-- `register_user` entry point. -/
def register_user (s : RState) (sender : Addr) (name country phone : String)
    (time : Int) : RemRes :=
  if s.paused = true then (.error .contractPaused, s)
  else if s.registered_users sender = true then (.error .userAlreadyRegistered, s)
  else
    let s1 := updUser s sender fun p =>
      { p with name := name, country := country, phone_number := phone,
               is_active := true, total_sent := 0, total_received := 0,
               registration_time := time }
    let s2 := { s1 with registered_users := fun a =>
                  if a = sender then true else s1.registered_users a }
    (.ok (), s2)

/-- `deposit_balance` entry point. -/
def deposit_balance (s : RState) (sender token : Addr) (amount : Int)
    (xfer : Option Bool) : RemRes :=
  if s.paused = true then (.error .contractPaused, s)
  else if s.registered_users sender = false then (.error .notRegistered, s)
  else if amount = 0 then (.error .invalidAmount, s)
  else if s.supported_tokens token = false then (.error .notSupportedToken, s)
  else if xferOk xfer = false then (.error .transferFailed, s)
  else
    let bal := (s.users sender).token_balances token
    (.ok (), updUser s sender fun p => p.setBal token (uadd bal amount))

/-- `withdraw_balance` entry point.  The internal balance is decreased before
the external push-transfer; a failing transfer leaves the decrement in place. -/
def withdraw_balance (s : RState) (sender token : Addr) (amount : Int)
    (xfer : Option Bool) : RemRes :=
  if s.paused = true then (.error .contractPaused, s)
  else if s.registered_users sender = false then (.error .notRegistered, s)
  else if s.supported_tokens token = false ∨ amount = 0 then
    (.error .invalidConfiguration, s)
  else
    let bal := (s.users sender).token_balances token
    if bal < amount then (.error .insufficientBalance, s)
    else
      let s1 := updUser s sender fun p => p.setBal token (bal - amount)
      if xferOk xfer = false then (.error .transferFailed, s1)
      else (.ok (), s1)

/-- `send_payment` entry point. -/
def send_payment (s : RState) (sender recipient : Addr) (amount : Int)
    (token : Addr) (note : String) (time : Int)
    (xferPull xferNet xferFee : Option Bool) : RemRes :=
  if s.paused = true then (.error .contractPaused, s)
  else if s.registered_users sender = false then (.error .notRegistered, s)
  else if s.supported_tokens token = false ∨ amount = 0 then
    (.error .invalidConfiguration, s)
  else if check_daily_limit s sender amount time = false then (.error .exceedsLimit, s)
  else if xferOk xferPull = false then (.error .transferFailed, s)
  else
    let fee := platformFee s.platform_fee_percent amount
    if amount < fee then (.error .invalidAmount, s)
    else
      let net := amount - fee
      if xferOk xferNet = false then (.error .transferFailed, s)
      else if 0 < fee ∧ xferOk xferFee = false then (.error .transferFailed, s)
      else
        let pid := s.payment_count
        let s1 := { s with
          payments := fun i => if i = pid then
              { sender := sender, recipient := recipient, amount := amount,
                token := token, timestamp := time, payment_type := 0,
                note := note, completed := true }
            else s.payments i,
          payment_count := uadd pid 1 }
        let s2 := updUser s1 sender fun p =>
          { p with total_sent := uadd p.total_sent amount }
        let s3 := if s2.registered_users recipient = true then
            updUser s2 recipient fun p =>
              { p with total_received := uadd p.total_received net }
          else s2
        (.ok (), update_daily_spent s3 sender amount time)

/-- `add_beneficiary` entry point. -/
def add_beneficiary (s : RState) (sender beneficiary_address : Addr)
    (name relationship : String) (amount : Int) (token : Addr)
    (frequency : Int) : RemRes :=
  if s.paused = true then (.error .contractPaused, s)
  else if s.registered_users sender = false then (.error .notRegistered, s)
  else if s.supported_tokens token = false ∨ amount = 0 then
    (.error .invalidConfiguration, s)
  else if frequency ≠ 0 ∧ frequency ≠ 1 ∧ frequency ≠ 7 ∧ frequency ≠ 30 ∧
      frequency ≠ 365 then (.error .invalidFrequency, s)
  else
    let cnt := s.beneficiary_counts sender
    let s1 := updBen s sender cnt fun _ =>
      { beneficiary_address := beneficiary_address, name := name,
        relationship := relationship, amount := amount, token := token,
        frequency := frequency, last_payment := 0, is_active := true,
        total_sent := 0 }
    let s2 := { s1 with beneficiary_counts := fun a =>
                  if a = sender then uadd cnt 1 else s1.beneficiary_counts a }
    (.ok (), s2)

/-- `update_beneficiary` entry point. -/
def update_beneficiary (s : RState) (sender : Addr)
    (beneficiary_index amount frequency : Int) : RemRes :=
  if s.paused = true then (.error .contractPaused, s)
  else if s.registered_users sender = false then (.error .notRegistered, s)
  else if s.beneficiary_counts sender ≤ beneficiary_index then
    (.error .beneficiaryNotFound, s)
  else if frequency ≠ 0 ∧ frequency ≠ 1 ∧ frequency ≠ 7 ∧ frequency ≠ 30 ∧
      frequency ≠ 365 then (.error .invalidFrequency, s)
  else if (s.user_beneficiaries sender beneficiary_index).is_active = false then
    (.error .beneficiaryNotFound, s)
  else
    (.ok (), updBen s sender beneficiary_index fun b =>
      { b with amount := amount, frequency := frequency })

/-- `remove_beneficiary` entry point: a soft delete via the `is_active` flag. -/
def remove_beneficiary (s : RState) (sender : Addr)
    (beneficiary_index : Int) : RemRes :=
  if s.paused = true then (.error .contractPaused, s)
  else if s.registered_users sender = false then (.error .notRegistered, s)
  else if s.beneficiary_counts sender ≤ beneficiary_index then
    (.error .beneficiaryNotFound, s)
  else if (s.user_beneficiaries sender beneficiary_index).is_active = false then
    (.error .beneficiaryNotFound, s)
  else
    (.ok (), updBen s sender beneficiary_index fun b => { b with is_active := false })

/-- `execute_auto_payments` entry point (permissionless crank). -/
def execute_auto_payments (s : RState) (user : Addr) (beneficiary_index : Int)
    (time : Int) (xferNet xferFee : Option Bool) : RemRes :=
  if s.paused = true then (.error .contractPaused, s)
  else if s.beneficiary_counts user ≤ beneficiary_index then
    (.error .beneficiaryNotFound, s)
  else
    let b := s.user_beneficiaries user beneficiary_index
    if b.is_active = false ∨ b.frequency = 0 then (.error .invalidConfiguration, s)
    else
      let frequency_seconds := umul b.frequency 86400
      if 0 < b.last_payment ∧ usub time b.last_payment < frequency_seconds then
        (.error .frequencyNotMet, s)
      else
        let amount := b.amount
        let token := b.token
        let user_balance := (s.users user).token_balances token
        if user_balance < amount then (.error .insufficientBalance, s)
        else
          let fee := platformFee s.platform_fee_percent amount
          if amount < fee then (.error .invalidAmount, s)
          else
            let net := amount - fee
            let s1 := updUser s user fun p => p.setBal token (user_balance - amount)
            if xferOk xferNet = false then (.error .transferFailed, s1)
            else if 0 < fee ∧ xferOk xferFee = false then (.error .transferFailed, s1)
            else
              let s2 := updBen s1 user beneficiary_index fun bb =>
                { bb with last_payment := time, total_sent := uadd bb.total_sent amount }
              let s3 := updUser s2 user fun p =>
                { p with total_sent := uadd p.total_sent amount }
              let s4 := if s3.registered_users b.beneficiary_address = true then
                  updUser s3 b.beneficiary_address fun p =>
                    { p with total_received := uadd p.total_received net }
                else s3
              (.ok (), { s4 with execution_count := uadd s4.execution_count 1 })

/-- `add_supported_token` admin entry point (owner-only, not pause-gated). -/
def add_supported_token (s : RState) (sender token : Addr) : RemRes :=
  if sender ≠ s.owner then (.error .unauthorized, s)
  else (.ok (), { s with supported_tokens := fun t =>
                    if t = token then true else s.supported_tokens t })

/-- `remove_supported_token` admin entry point. -/
def remove_supported_token (s : RState) (sender token : Addr) : RemRes :=
  if sender ≠ s.owner then (.error .unauthorized, s)
  else (.ok (), { s with supported_tokens := fun t =>
                    if t = token then false else s.supported_tokens t })

/-- `set_daily_limit` admin entry point. -/
def set_daily_limit (s : RState) (sender user : Addr) (limit : Int) : RemRes :=
  if sender ≠ s.owner then (.error .unauthorized, s)
  else (.ok (), { s with daily_limits := fun a =>
                    if a = user then limit else s.daily_limits a })

/-- `pause` admin entry point. -/
def pause (s : RState) (sender : Addr) : RemRes :=
  if sender ≠ s.owner then (.error .unauthorized, s)
  else (.ok (), { s with paused := true })

/-- `unpause` admin entry point. -/
def unpause (s : RState) (sender : Addr) : RemRes :=
  if sender ≠ s.owner then (.error .unauthorized, s)
  else (.ok (), { s with paused := false })

/-- `emergency_withdraw` admin entry point: only an external transfer, no
internal state is touched. -/
def emergency_withdraw (s : RState) (sender token : Addr) (amount : Int)
    (xfer : Option Bool) : RemRes :=
  if sender ≠ s.owner then (.error .unauthorized, s)
  else if xferOk xfer = false then (.error .transferFailed, s)
  else (.ok (), s)

/-- `update_platform_fee` admin entry point: rejects rates above 100 bps. -/
def update_platform_fee (s : RState) (sender : Addr) (new_fee_percent : Int) : RemRes :=
  if sender ≠ s.owner then (.error .unauthorized, s)
  else if 100 < new_fee_percent then (.error .invalidConfiguration, s)
  else (.ok (), { s with platform_fee_percent := new_fee_percent })

/-- `update_treasury` admin entry point. -/
def update_treasury (s : RState) (sender new_treasury : Addr) : RemRes :=
  if sender ≠ s.owner then (.error .unauthorized, s)
  else if new_treasury = 0 then (.error .invalidConfiguration, s)
  else (.ok (), { s with treasury := new_treasury })

/-- `batch_execute_auto_payments` entry point: per-entry external-call
outcomes travel with the entries; each failure is downgraded to `false` and
never aborts the batch. -/
def batch_execute_auto_payments (s : RState)
    (users_and_indices : List (Addr × Int × Option Bool × Option Bool))
    (time : Int) : Except RemErr (List Bool) × RState :=
  if s.paused = true then (.error .contractPaused, s)
  else
    let r := users_and_indices.foldl
      (fun (acc : List Bool × RState) e =>
        match execute_auto_payments acc.2 e.1 e.2.1 time e.2.2.1 e.2.2.2 with
        | (.ok _, s') => (acc.1 ++ [true], s')
        | (.error _, s') => (acc.1 ++ [false], s'))
      ([], s)
    (.ok r.1, r.2)

/-- `get_user_balance` view. -/
def get_user_balance (s : RState) (user token : Addr) : Int :=
  (s.users user).token_balances token

/-- `get_user_profile` view (all profile fields except the balance mapping). -/
def get_user_profile (s : RState) (user : Addr) :
    String × String × String × Bool × Int × Int × Int :=
  let p := s.users user
  (p.name, p.country, p.phone_number, p.is_active, p.total_sent,
   p.total_received, p.registration_time)

/-- `get_beneficiary` view: only the index bound is checked in the source,
the `is_active` flag is not consulted. -/
def get_beneficiary (s : RState) (user : Addr) (index : Int) :
    Except RemErr Beneficiary :=
  if s.beneficiary_counts user ≤ index then .error .beneficiaryNotFound
  else .ok (s.user_beneficiaries user index)

/-- `get_beneficiary_count` view. -/
def get_beneficiary_count (s : RState) (user : Addr) : Int :=
  s.beneficiary_counts user

/-- `get_payment` view. -/
def get_payment (s : RState) (payment_id : Int) : Except RemErr Payment :=
  if s.payment_count ≤ payment_id then .error .invalidConfiguration
  else .ok (s.payments payment_id)

/-- `is_token_supported` view. -/
def is_token_supported (s : RState) (token : Addr) : Bool :=
  s.supported_tokens token

/-- `get_daily_limit` view. -/
def get_daily_limit (s : RState) (user : Addr) : Int := s.daily_limits user

/-- `get_daily_spent` view. -/
def get_daily_spent (s : RState) (user : Addr) (time : Int) : Int :=
  s.daily_spent user (time / 86400)

/-- `get_contract_stats` view. -/
def get_contract_stats (s : RState) : Int × Int × Int × Bool × Addr :=
  (s.payment_count, s.execution_count, s.platform_fee_percent, s.paused, s.treasury)

/-- `estimate_next_payment_time` view. -/
def estimate_next_payment_time (s : RState) (user : Addr)
    (beneficiary_index time : Int) : Except RemErr Int :=
  if s.beneficiary_counts user ≤ beneficiary_index then .error .beneficiaryNotFound
  else
    let b := s.user_beneficiaries user beneficiary_index
    if b.is_active = false ∨ b.frequency = 0 then .ok 0
    else if b.last_payment = 0 then .ok time
    else .ok (uadd b.last_payment (umul b.frequency 86400))

/-- One balance-moving operation, as enumerated by the specification's
no-negative-balances property: deposit, withdraw, manual payment, or
auto-payment execution, together with its context and external-call oracle. -/
inductive Op where
  | deposit (sender token : Addr) (amount : Int) (xfer : Option Bool)
  | withdraw (sender token : Addr) (amount : Int) (xfer : Option Bool)
  | send (sender recipient : Addr) (amount : Int) (token : Addr) (note : String)
      (time : Int) (xferPull xferNet xferFee : Option Bool)
  | execute (user : Addr) (beneficiary_index time : Int)
      (xferNet xferFee : Option Bool)

/-- The state reached by one operation (its `Result` discarded). -/
def step (o : Op) (s : RState) : RState :=
  match o with
  | .deposit sender token amount xfer => (deposit_balance s sender token amount xfer).2
  | .withdraw sender token amount xfer => (withdraw_balance s sender token amount xfer).2
  | .send sender recipient amount token note time xP xN xF =>
      (send_payment s sender recipient amount token note time xP xN xF).2
  | .execute user i time xN xF => (execute_auto_payments s user i time xN xF).2

/-- The state reached by a sequence of operations. -/
def run (ops : List Op) (s : RState) : RState := ops.foldl (fun s o => step o s) s

/-- All internal per-token balances are nonnegative. -/
def BalNonneg (s : RState) : Prop := ∀ a t, 0 ≤ (s.users a).token_balances t

@[simp] theorem updUser_owner (s : RState) (u : Addr) (f : UserProfile → UserProfile) :
    (updUser s u f).owner = s.owner := rfl

@[simp] theorem updUser_paused (s : RState) (u : Addr) (f : UserProfile → UserProfile) :
    (updUser s u f).paused = s.paused := rfl

@[simp] theorem updUser_payment_count (s : RState) (u : Addr)
    (f : UserProfile → UserProfile) : (updUser s u f).payment_count = s.payment_count := rfl

@[simp] theorem updUser_execution_count (s : RState) (u : Addr)
    (f : UserProfile → UserProfile) :
    (updUser s u f).execution_count = s.execution_count := rfl

@[simp] theorem updUser_payments (s : RState) (u : Addr)
    (f : UserProfile → UserProfile) : (updUser s u f).payments = s.payments := rfl

@[simp] theorem updUser_daily_limits (s : RState) (u : Addr)
    (f : UserProfile → UserProfile) : (updUser s u f).daily_limits = s.daily_limits := rfl

@[simp] theorem updUser_daily_spent (s : RState) (u : Addr)
    (f : UserProfile → UserProfile) : (updUser s u f).daily_spent = s.daily_spent := rfl

@[simp] theorem updUser_registered (s : RState) (u : Addr)
    (f : UserProfile → UserProfile) :
    (updUser s u f).registered_users = s.registered_users := rfl

@[simp] theorem updUser_beneficiaries (s : RState) (u : Addr)
    (f : UserProfile → UserProfile) :
    (updUser s u f).user_beneficiaries = s.user_beneficiaries := rfl

@[simp] theorem updUser_beneficiary_counts (s : RState) (u : Addr)
    (f : UserProfile → UserProfile) :
    (updUser s u f).beneficiary_counts = s.beneficiary_counts := rfl

@[simp] theorem updUser_supported (s : RState) (u : Addr)
    (f : UserProfile → UserProfile) :
    (updUser s u f).supported_tokens = s.supported_tokens := rfl

@[simp] theorem updUser_fee (s : RState) (u : Addr)
    (f : UserProfile → UserProfile) :
    (updUser s u f).platform_fee_percent = s.platform_fee_percent := rfl

@[simp] theorem updUser_treasury (s : RState) (u : Addr)
    (f : UserProfile → UserProfile) : (updUser s u f).treasury = s.treasury := rfl

@[simp] theorem updBen_users (s : RState) (u : Addr) (i : Int)
    (f : Beneficiary → Beneficiary) : (updBen s u i f).users = s.users := rfl

@[simp] theorem updBen_paused (s : RState) (u : Addr) (i : Int)
    (f : Beneficiary → Beneficiary) : (updBen s u i f).paused = s.paused := rfl

@[simp] theorem updBen_payment_count (s : RState) (u : Addr) (i : Int)
    (f : Beneficiary → Beneficiary) : (updBen s u i f).payment_count = s.payment_count := rfl

@[simp] theorem updBen_execution_count (s : RState) (u : Addr) (i : Int)
    (f : Beneficiary → Beneficiary) :
    (updBen s u i f).execution_count = s.execution_count := rfl

@[simp] theorem updBen_payments (s : RState) (u : Addr) (i : Int)
    (f : Beneficiary → Beneficiary) : (updBen s u i f).payments = s.payments := rfl

@[simp] theorem updBen_daily_limits (s : RState) (u : Addr) (i : Int)
    (f : Beneficiary → Beneficiary) : (updBen s u i f).daily_limits = s.daily_limits := rfl

@[simp] theorem updBen_daily_spent (s : RState) (u : Addr) (i : Int)
    (f : Beneficiary → Beneficiary) : (updBen s u i f).daily_spent = s.daily_spent := rfl

@[simp] theorem updBen_registered (s : RState) (u : Addr) (i : Int)
    (f : Beneficiary → Beneficiary) :
    (updBen s u i f).registered_users = s.registered_users := rfl

@[simp] theorem updBen_counts (s : RState) (u : Addr) (i : Int)
    (f : Beneficiary → Beneficiary) :
    (updBen s u i f).beneficiary_counts = s.beneficiary_counts := rfl

@[simp] theorem upd_daily_spent_users (s : RState) (u : Addr) (amount time : Int) :
    (update_daily_spent s u amount time).users = s.users := rfl

@[simp] theorem upd_daily_spent_payment_count (s : RState) (u : Addr)
    (amount time : Int) :
    (update_daily_spent s u amount time).payment_count = s.payment_count := rfl

@[simp] theorem upd_daily_spent_execution_count (s : RState) (u : Addr)
    (amount time : Int) :
    (update_daily_spent s u amount time).execution_count = s.execution_count := rfl

@[simp] theorem upd_daily_spent_payments (s : RState) (u : Addr) (amount time : Int) :
    (update_daily_spent s u amount time).payments = s.payments := rfl

@[simp] theorem upd_daily_spent_daily_limits (s : RState) (u : Addr)
    (amount time : Int) :
    (update_daily_spent s u amount time).daily_limits = s.daily_limits := rfl

@[simp] theorem upd_daily_spent_registered (s : RState) (u : Addr)
    (amount time : Int) :
    (update_daily_spent s u amount time).registered_users = s.registered_users := rfl

@[simp] theorem upd_daily_spent_beneficiaries (s : RState) (u : Addr)
    (amount time : Int) :
    (update_daily_spent s u amount time).user_beneficiaries = s.user_beneficiaries := rfl

/-- Balance cells after a profile update that rewrites one balance cell. -/
theorem updUser_setBal_balance (s : RState) (u tok : Addr) (v : Int) (a t : Addr) :
    ((updUser s u fun p => p.setBal tok v).users a).token_balances t =
      if a = u ∧ t = tok then v else (s.users a).token_balances t := by
  unfold updUser UserProfile.setBal
  by_cases h : a = u <;> by_cases h2 : t = tok <;> simp [h, h2]

/-- Balance cells are untouched by a profile update that does not write the
balance mapping. -/
theorem updUser_balance_frame (s : RState) (u : Addr) (f : UserProfile → UserProfile)
    (hf : ∀ p, (f p).token_balances = p.token_balances) (a t : Addr) :
    ((updUser s u f).users a).token_balances t = (s.users a).token_balances t := by
  unfold updUser
  by_cases h : a = u <;> simp [h, hf]

/-- The state left by `deposit_balance` on success: the caller's balance
cell is increased (with `U256` wrap-around). -/
def deposit_state (s : RState) (sender token : Addr) (amount : Int) : RState :=
  updUser s sender fun p =>
    p.setBal token (uadd ((s.users sender).token_balances token) amount)

/-- The state left by `withdraw_balance` once the balance check has passed:
the caller's balance cell is decreased.  This state is reached before the
external transfer is attempted. -/
def withdraw_debit_state (s : RState) (sender token : Addr) (amount : Int) : RState :=
  updUser s sender fun p =>
    p.setBal token ((s.users sender).token_balances token - amount)

/-- The state left by `execute_auto_payments` after the internal debit but
before the external transfers. -/
def execute_debit_state (s : RState) (user : Addr) (i : Int) : RState :=
  updUser s user fun p =>
    p.setBal (s.user_beneficiaries user i).token
      ((s.users user).token_balances (s.user_beneficiaries user i).token -
        (s.user_beneficiaries user i).amount)

/-- The state left by a fully successful `execute_auto_payments`. -/
def execute_success_state (s : RState) (user : Addr) (i time : Int) : RState :=
  let b := s.user_beneficiaries user i
  let net := b.amount - platformFee s.platform_fee_percent b.amount
  let s1 := execute_debit_state s user i
  let s2 := updBen s1 user i fun bb =>
    { bb with last_payment := time, total_sent := uadd bb.total_sent b.amount }
  let s3 := updUser s2 user fun p => { p with total_sent := uadd p.total_sent b.amount }
  let s4 := if s3.registered_users b.beneficiary_address = true then
      updUser s3 b.beneficiary_address fun p =>
        { p with total_received := uadd p.total_received net }
    else s3
  { s4 with execution_count := uadd s4.execution_count 1 }

/-- The state left by a fully successful `send_payment`. -/
def send_success_state (s : RState) (sender recipient : Addr) (amount : Int)
    (token : Addr) (note : String) (time : Int) : RState :=
  let net := amount - platformFee s.platform_fee_percent amount
  let s1 := { s with
    payments := fun j => if j = s.payment_count then
        { sender := sender, recipient := recipient, amount := amount,
          token := token, timestamp := time, payment_type := 0,
          note := note, completed := true }
      else s.payments j,
    payment_count := uadd s.payment_count 1 }
  let s2 := updUser s1 sender fun p => { p with total_sent := uadd p.total_sent amount }
  let s3 := if s2.registered_users recipient = true then
      updUser s2 recipient fun p => { p with total_received := uadd p.total_received net }
    else s2
  update_daily_spent s3 sender amount time

/-- Equation: `deposit_balance` while paused. -/
theorem deposit_eq_paused (s : RState) (sender token : Addr) (amount : Int)
    (x : Option Bool) (h1 : s.paused = true) :
    deposit_balance s sender token amount x = (.error .contractPaused, s) := by
  unfold deposit_balance; rw [if_pos h1]

/-- Equation: `deposit_balance` by an unregistered caller. -/
theorem deposit_eq_not_registered (s : RState) (sender token : Addr) (amount : Int)
    (x : Option Bool) (h1 : ¬ s.paused = true) (h2 : s.registered_users sender = false) :
    deposit_balance s sender token amount x = (.error .notRegistered, s) := by
  unfold deposit_balance; rw [if_neg h1, if_pos h2]

/-- Equation: `deposit_balance` with a zero amount. -/
theorem deposit_eq_zero_amount (s : RState) (sender token : Addr) (amount : Int)
    (x : Option Bool) (h1 : ¬ s.paused = true) (h2 : ¬ s.registered_users sender = false)
    (h3 : amount = 0) :
    deposit_balance s sender token amount x = (.error .invalidAmount, s) := by
  unfold deposit_balance; rw [if_neg h1, if_neg h2, if_pos h3]

/-- Equation: `deposit_balance` of an unsupported token. -/
theorem deposit_eq_unsupported (s : RState) (sender token : Addr) (amount : Int)
    (x : Option Bool) (h1 : ¬ s.paused = true) (h2 : ¬ s.registered_users sender = false)
    (h3 : ¬ amount = 0) (h4 : s.supported_tokens token = false) :
    deposit_balance s sender token amount x = (.error .notSupportedToken, s) := by
  unfold deposit_balance; rw [if_neg h1, if_neg h2, if_neg h3, if_pos h4]

/-- Equation: `deposit_balance` whose external pull-transfer fails; no state
was mutated yet. -/
theorem deposit_eq_transfer_failed (s : RState) (sender token : Addr) (amount : Int)
    (x : Option Bool) (h1 : ¬ s.paused = true) (h2 : ¬ s.registered_users sender = false)
    (h3 : ¬ amount = 0) (h4 : ¬ s.supported_tokens token = false)
    (h5 : xferOk x = false) :
    deposit_balance s sender token amount x = (.error .transferFailed, s) := by
  unfold deposit_balance; rw [if_neg h1, if_neg h2, if_neg h3, if_neg h4, if_pos h5]

/-- Equation: successful `deposit_balance`. -/
theorem deposit_eq_ok (s : RState) (sender token : Addr) (amount : Int)
    (x : Option Bool) (h1 : ¬ s.paused = true) (h2 : ¬ s.registered_users sender = false)
    (h3 : ¬ amount = 0) (h4 : ¬ s.supported_tokens token = false)
    (h5 : ¬ xferOk x = false) :
    deposit_balance s sender token amount x = (.ok (), deposit_state s sender token amount) := by
  unfold deposit_balance; rw [if_neg h1, if_neg h2, if_neg h3, if_neg h4, if_neg h5]; rfl

/-- Equation: `withdraw_balance` while paused. -/
theorem withdraw_eq_paused (s : RState) (sender token : Addr) (amount : Int)
    (x : Option Bool) (h1 : s.paused = true) :
    withdraw_balance s sender token amount x = (.error .contractPaused, s) := by
  unfold withdraw_balance; rw [if_pos h1]

/-- Equation: `withdraw_balance` by an unregistered caller. -/
theorem withdraw_eq_not_registered (s : RState) (sender token : Addr) (amount : Int)
    (x : Option Bool) (h1 : ¬ s.paused = true) (h2 : s.registered_users sender = false) :
    withdraw_balance s sender token amount x = (.error .notRegistered, s) := by
  unfold withdraw_balance; rw [if_neg h1, if_pos h2]

/-- Equation: `withdraw_balance` with an unsupported token or zero amount. -/
theorem withdraw_eq_invalid_config (s : RState) (sender token : Addr) (amount : Int)
    (x : Option Bool) (h1 : ¬ s.paused = true) (h2 : ¬ s.registered_users sender = false)
    (h3 : s.supported_tokens token = false ∨ amount = 0) :
    withdraw_balance s sender token amount x = (.error .invalidConfiguration, s) := by
  unfold withdraw_balance; rw [if_neg h1, if_neg h2, if_pos h3]

/-- Equation: `withdraw_balance` with an insufficient internal balance:
rejected with no mutation. -/
theorem withdraw_eq_insufficient (s : RState) (sender token : Addr) (amount : Int)
    (x : Option Bool) (h1 : ¬ s.paused = true) (h2 : ¬ s.registered_users sender = false)
    (h3 : ¬ (s.supported_tokens token = false ∨ amount = 0))
    (h4 : (s.users sender).token_balances token < amount) :
    withdraw_balance s sender token amount x = (.error .insufficientBalance, s) := by
  unfold withdraw_balance; rw [if_neg h1, if_neg h2, if_neg h3]
  dsimp only; rw [if_pos h4]

/-- Equation: `withdraw_balance` whose external push-transfer fails after
the internal debit; the debit is left in place. -/
theorem withdraw_eq_transfer_failed (s : RState) (sender token : Addr) (amount : Int)
    (x : Option Bool) (h1 : ¬ s.paused = true) (h2 : ¬ s.registered_users sender = false)
    (h3 : ¬ (s.supported_tokens token = false ∨ amount = 0))
    (h4 : ¬ (s.users sender).token_balances token < amount)
    (h5 : xferOk x = false) :
    withdraw_balance s sender token amount x =
      (.error .transferFailed, withdraw_debit_state s sender token amount) := by
  unfold withdraw_balance; rw [if_neg h1, if_neg h2, if_neg h3]
  dsimp only; rw [if_neg h4, if_pos h5]; rfl

/-- Equation: successful `withdraw_balance`. -/
theorem withdraw_eq_ok (s : RState) (sender token : Addr) (amount : Int)
    (x : Option Bool) (h1 : ¬ s.paused = true) (h2 : ¬ s.registered_users sender = false)
    (h3 : ¬ (s.supported_tokens token = false ∨ amount = 0))
    (h4 : ¬ (s.users sender).token_balances token < amount)
    (h5 : ¬ xferOk x = false) :
    withdraw_balance s sender token amount x =
      (.ok (), withdraw_debit_state s sender token amount) := by
  unfold withdraw_balance; rw [if_neg h1, if_neg h2, if_neg h3]
  dsimp only; rw [if_neg h4, if_neg h5]; rfl

/-- Equation: `execute_auto_payments` while paused. -/
theorem execute_eq_paused (s : RState) (user : Addr) (i time : Int)
    (xN xF : Option Bool) (h1 : s.paused = true) :
    execute_auto_payments s user i time xN xF = (.error .contractPaused, s) := by
  unfold execute_auto_payments; rw [if_pos h1]

/-- Equation: `execute_auto_payments` with an out-of-range index. -/
theorem execute_eq_not_found (s : RState) (user : Addr) (i time : Int)
    (xN xF : Option Bool) (h1 : ¬ s.paused = true)
    (h2 : s.beneficiary_counts user ≤ i) :
    execute_auto_payments s user i time xN xF = (.error .beneficiaryNotFound, s) := by
  unfold execute_auto_payments; rw [if_neg h1, if_pos h2]

/-- Equation: `execute_auto_payments` on an inactive or manual (frequency 0)
beneficiary. -/
theorem execute_eq_invalid_config (s : RState) (user : Addr) (i time : Int)
    (xN xF : Option Bool) (h1 : ¬ s.paused = true)
    (h2 : ¬ s.beneficiary_counts user ≤ i)
    (h3 : (s.user_beneficiaries user i).is_active = false ∨
      (s.user_beneficiaries user i).frequency = 0) :
    execute_auto_payments s user i time xN xF = (.error .invalidConfiguration, s) := by
  unfold execute_auto_payments; rw [if_neg h1, if_neg h2]
  dsimp only; rw [if_pos h3]

/-- Equation: `execute_auto_payments` before the configured interval has
elapsed. -/
theorem execute_eq_frequency_not_met (s : RState) (user : Addr) (i time : Int)
    (xN xF : Option Bool) (h1 : ¬ s.paused = true)
    (h2 : ¬ s.beneficiary_counts user ≤ i)
    (h3 : ¬ ((s.user_beneficiaries user i).is_active = false ∨
      (s.user_beneficiaries user i).frequency = 0))
    (h4 : 0 < (s.user_beneficiaries user i).last_payment ∧
      usub time (s.user_beneficiaries user i).last_payment <
        umul (s.user_beneficiaries user i).frequency 86400) :
    execute_auto_payments s user i time xN xF = (.error .frequencyNotMet, s) := by
  unfold execute_auto_payments; rw [if_neg h1, if_neg h2]
  dsimp only; rw [if_neg h3, if_pos h4]

/-- Equation: `execute_auto_payments` with an insufficient internal
balance: rejected with no mutation. -/
theorem execute_eq_insufficient (s : RState) (user : Addr) (i time : Int)
    (xN xF : Option Bool) (h1 : ¬ s.paused = true)
    (h2 : ¬ s.beneficiary_counts user ≤ i)
    (h3 : ¬ ((s.user_beneficiaries user i).is_active = false ∨
      (s.user_beneficiaries user i).frequency = 0))
    (h4 : ¬ (0 < (s.user_beneficiaries user i).last_payment ∧
      usub time (s.user_beneficiaries user i).last_payment <
        umul (s.user_beneficiaries user i).frequency 86400))
    (h5 : (s.users user).token_balances (s.user_beneficiaries user i).token <
      (s.user_beneficiaries user i).amount) :
    execute_auto_payments s user i time xN xF = (.error .insufficientBalance, s) := by
  unfold execute_auto_payments; rw [if_neg h1, if_neg h2]
  dsimp only; rw [if_neg h3, if_neg h4, if_pos h5]

/-- Equation: `execute_auto_payments` when `checked_sub` would underflow. -/
theorem execute_eq_fee_underflow (s : RState) (user : Addr) (i time : Int)
    (xN xF : Option Bool) (h1 : ¬ s.paused = true)
    (h2 : ¬ s.beneficiary_counts user ≤ i)
    (h3 : ¬ ((s.user_beneficiaries user i).is_active = false ∨
      (s.user_beneficiaries user i).frequency = 0))
    (h4 : ¬ (0 < (s.user_beneficiaries user i).last_payment ∧
      usub time (s.user_beneficiaries user i).last_payment <
        umul (s.user_beneficiaries user i).frequency 86400))
    (h5 : ¬ (s.users user).token_balances (s.user_beneficiaries user i).token <
      (s.user_beneficiaries user i).amount)
    (h6 : (s.user_beneficiaries user i).amount <
      platformFee s.platform_fee_percent (s.user_beneficiaries user i).amount) :
    execute_auto_payments s user i time xN xF = (.error .invalidAmount, s) := by
  unfold execute_auto_payments; rw [if_neg h1, if_neg h2]
  dsimp only; rw [if_neg h3, if_neg h4, if_neg h5, if_pos h6]

/-- Equation: `execute_auto_payments` whose net push-transfer fails; the
internal debit is left in place. -/
theorem execute_eq_net_transfer_failed (s : RState) (user : Addr) (i time : Int)
    (xN xF : Option Bool) (h1 : ¬ s.paused = true)
    (h2 : ¬ s.beneficiary_counts user ≤ i)
    (h3 : ¬ ((s.user_beneficiaries user i).is_active = false ∨
      (s.user_beneficiaries user i).frequency = 0))
    (h4 : ¬ (0 < (s.user_beneficiaries user i).last_payment ∧
      usub time (s.user_beneficiaries user i).last_payment <
        umul (s.user_beneficiaries user i).frequency 86400))
    (h5 : ¬ (s.users user).token_balances (s.user_beneficiaries user i).token <
      (s.user_beneficiaries user i).amount)
    (h6 : ¬ (s.user_beneficiaries user i).amount <
      platformFee s.platform_fee_percent (s.user_beneficiaries user i).amount)
    (h7 : xferOk xN = false) :
    execute_auto_payments s user i time xN xF =
      (.error .transferFailed, execute_debit_state s user i) := by
  unfold execute_auto_payments; rw [if_neg h1, if_neg h2]
  dsimp only; rw [if_neg h3, if_neg h4, if_neg h5, if_neg h6, if_pos h7]; rfl

/-- Equation: `execute_auto_payments` whose treasury fee push-transfer
fails; the internal debit is left in place. -/
theorem execute_eq_fee_transfer_failed (s : RState) (user : Addr) (i time : Int)
    (xN xF : Option Bool) (h1 : ¬ s.paused = true)
    (h2 : ¬ s.beneficiary_counts user ≤ i)
    (h3 : ¬ ((s.user_beneficiaries user i).is_active = false ∨
      (s.user_beneficiaries user i).frequency = 0))
    (h4 : ¬ (0 < (s.user_beneficiaries user i).last_payment ∧
      usub time (s.user_beneficiaries user i).last_payment <
        umul (s.user_beneficiaries user i).frequency 86400))
    (h5 : ¬ (s.users user).token_balances (s.user_beneficiaries user i).token <
      (s.user_beneficiaries user i).amount)
    (h6 : ¬ (s.user_beneficiaries user i).amount <
      platformFee s.platform_fee_percent (s.user_beneficiaries user i).amount)
    (h7 : ¬ xferOk xN = false)
    (h8 : 0 < platformFee s.platform_fee_percent (s.user_beneficiaries user i).amount ∧
      xferOk xF = false) :
    execute_auto_payments s user i time xN xF =
      (.error .transferFailed, execute_debit_state s user i) := by
  unfold execute_auto_payments; rw [if_neg h1, if_neg h2]
  dsimp only; rw [if_neg h3, if_neg h4, if_neg h5, if_neg h6, if_neg h7, if_pos h8]; rfl

/-- Equation: fully successful `execute_auto_payments`. -/
theorem execute_eq_ok (s : RState) (user : Addr) (i time : Int)
    (xN xF : Option Bool) (h1 : ¬ s.paused = true)
    (h2 : ¬ s.beneficiary_counts user ≤ i)
    (h3 : ¬ ((s.user_beneficiaries user i).is_active = false ∨
      (s.user_beneficiaries user i).frequency = 0))
    (h4 : ¬ (0 < (s.user_beneficiaries user i).last_payment ∧
      usub time (s.user_beneficiaries user i).last_payment <
        umul (s.user_beneficiaries user i).frequency 86400))
    (h5 : ¬ (s.users user).token_balances (s.user_beneficiaries user i).token <
      (s.user_beneficiaries user i).amount)
    (h6 : ¬ (s.user_beneficiaries user i).amount <
      platformFee s.platform_fee_percent (s.user_beneficiaries user i).amount)
    (h7 : ¬ xferOk xN = false)
    (h8 : ¬ (0 < platformFee s.platform_fee_percent (s.user_beneficiaries user i).amount ∧
      xferOk xF = false)) :
    execute_auto_payments s user i time xN xF =
      (.ok (), execute_success_state s user i time) := by
  unfold execute_auto_payments; rw [if_neg h1, if_neg h2]
  dsimp only; rw [if_neg h3, if_neg h4, if_neg h5, if_neg h6, if_neg h7, if_neg h8]; rfl

/-- Case analysis on `execute_auto_payments`: it is either an error that
leaves the state unchanged, an error after the internal debit, or the full
success. -/
theorem execute_cases (s : RState) (user : Addr) (i time : Int)
    (xN xF : Option Bool) :
    (∃ e, execute_auto_payments s user i time xN xF = (.error e, s)) ∨
    execute_auto_payments s user i time xN xF =
      (.error .transferFailed, execute_debit_state s user i) ∨
    execute_auto_payments s user i time xN xF =
      (.ok (), execute_success_state s user i time) := by
  by_cases h1 : s.paused = true
  · exact .inl ⟨_, execute_eq_paused s user i time xN xF h1⟩
  by_cases h2 : s.beneficiary_counts user ≤ i
  · exact .inl ⟨_, execute_eq_not_found s user i time xN xF h1 h2⟩
  by_cases h3 : (s.user_beneficiaries user i).is_active = false ∨
      (s.user_beneficiaries user i).frequency = 0
  · exact .inl ⟨_, execute_eq_invalid_config s user i time xN xF h1 h2 h3⟩
  by_cases h4 : 0 < (s.user_beneficiaries user i).last_payment ∧
      usub time (s.user_beneficiaries user i).last_payment <
        umul (s.user_beneficiaries user i).frequency 86400
  · exact .inl ⟨_, execute_eq_frequency_not_met s user i time xN xF h1 h2 h3 h4⟩
  by_cases h5 : (s.users user).token_balances (s.user_beneficiaries user i).token <
      (s.user_beneficiaries user i).amount
  · exact .inl ⟨_, execute_eq_insufficient s user i time xN xF h1 h2 h3 h4 h5⟩
  by_cases h6 : (s.user_beneficiaries user i).amount <
      platformFee s.platform_fee_percent (s.user_beneficiaries user i).amount
  · exact .inl ⟨_, execute_eq_fee_underflow s user i time xN xF h1 h2 h3 h4 h5 h6⟩
  by_cases h7 : xferOk xN = false
  · exact .inr (.inl (execute_eq_net_transfer_failed s user i time xN xF h1 h2 h3 h4 h5 h6 h7))
  by_cases h8 : 0 < platformFee s.platform_fee_percent (s.user_beneficiaries user i).amount ∧
      xferOk xF = false
  · exact .inr (.inl (execute_eq_fee_transfer_failed s user i time xN xF h1 h2 h3 h4 h5 h6 h7 h8))
  · exact .inr (.inr (execute_eq_ok s user i time xN xF h1 h2 h3 h4 h5 h6 h7 h8))

/-- Equation: `send_payment` while paused. -/
theorem send_eq_paused (s : RState) (sender recipient : Addr) (amount : Int)
    (token : Addr) (note : String) (time : Int) (xP xN xF : Option Bool)
    (h1 : s.paused = true) :
    send_payment s sender recipient amount token note time xP xN xF =
      (.error .contractPaused, s) := by
  unfold send_payment; rw [if_pos h1]

/-- Equation: `send_payment` by an unregistered caller. -/
theorem send_eq_not_registered (s : RState) (sender recipient : Addr) (amount : Int)
    (token : Addr) (note : String) (time : Int) (xP xN xF : Option Bool)
    (h1 : ¬ s.paused = true) (h2 : s.registered_users sender = false) :
    send_payment s sender recipient amount token note time xP xN xF =
      (.error .notRegistered, s) := by
  unfold send_payment; rw [if_neg h1, if_pos h2]

/-- Equation: `send_payment` with an unsupported token or zero amount. -/
theorem send_eq_invalid_config (s : RState) (sender recipient : Addr) (amount : Int)
    (token : Addr) (note : String) (time : Int) (xP xN xF : Option Bool)
    (h1 : ¬ s.paused = true) (h2 : ¬ s.registered_users sender = false)
    (h3 : s.supported_tokens token = false ∨ amount = 0) :
    send_payment s sender recipient amount token note time xP xN xF =
      (.error .invalidConfiguration, s) := by
  unfold send_payment; rw [if_neg h1, if_neg h2, if_pos h3]

/-- Equation: `send_payment` rejected by the daily limit. -/
theorem send_eq_exceeds_limit (s : RState) (sender recipient : Addr) (amount : Int)
    (token : Addr) (note : String) (time : Int) (xP xN xF : Option Bool)
    (h1 : ¬ s.paused = true) (h2 : ¬ s.registered_users sender = false)
    (h3 : ¬ (s.supported_tokens token = false ∨ amount = 0))
    (h4 : check_daily_limit s sender amount time = false) :
    send_payment s sender recipient amount token note time xP xN xF =
      (.error .exceedsLimit, s) := by
  unfold send_payment; rw [if_neg h1, if_neg h2, if_neg h3, if_pos h4]

/-- Equation: `send_payment` whose pull-transfer from the sender fails. -/
theorem send_eq_pull_failed (s : RState) (sender recipient : Addr) (amount : Int)
    (token : Addr) (note : String) (time : Int) (xP xN xF : Option Bool)
    (h1 : ¬ s.paused = true) (h2 : ¬ s.registered_users sender = false)
    (h3 : ¬ (s.supported_tokens token = false ∨ amount = 0))
    (h4 : ¬ check_daily_limit s sender amount time = false)
    (h5 : xferOk xP = false) :
    send_payment s sender recipient amount token note time xP xN xF =
      (.error .transferFailed, s) := by
  unfold send_payment; rw [if_neg h1, if_neg h2, if_neg h3, if_neg h4, if_pos h5]

/-- Equation: `send_payment` when `checked_sub` would underflow. -/
theorem send_eq_fee_underflow (s : RState) (sender recipient : Addr) (amount : Int)
    (token : Addr) (note : String) (time : Int) (xP xN xF : Option Bool)
    (h1 : ¬ s.paused = true) (h2 : ¬ s.registered_users sender = false)
    (h3 : ¬ (s.supported_tokens token = false ∨ amount = 0))
    (h4 : ¬ check_daily_limit s sender amount time = false)
    (h5 : ¬ xferOk xP = false)
    (h6 : amount < platformFee s.platform_fee_percent amount) :
    send_payment s sender recipient amount token note time xP xN xF =
      (.error .invalidAmount, s) := by
  unfold send_payment; rw [if_neg h1, if_neg h2, if_neg h3, if_neg h4, if_neg h5]
  dsimp only; rw [if_pos h6]

/-- Equation: `send_payment` whose net push to the recipient fails (after
the pull has already succeeded; no internal state was mutated). -/
theorem send_eq_net_failed (s : RState) (sender recipient : Addr) (amount : Int)
    (token : Addr) (note : String) (time : Int) (xP xN xF : Option Bool)
    (h1 : ¬ s.paused = true) (h2 : ¬ s.registered_users sender = false)
    (h3 : ¬ (s.supported_tokens token = false ∨ amount = 0))
    (h4 : ¬ check_daily_limit s sender amount time = false)
    (h5 : ¬ xferOk xP = false)
    (h6 : ¬ amount < platformFee s.platform_fee_percent amount)
    (h7 : xferOk xN = false) :
    send_payment s sender recipient amount token note time xP xN xF =
      (.error .transferFailed, s) := by
  unfold send_payment; rw [if_neg h1, if_neg h2, if_neg h3, if_neg h4, if_neg h5]
  dsimp only; rw [if_neg h6, if_pos h7]

/-- Equation: `send_payment` whose fee push to the treasury fails. -/
theorem send_eq_fee_failed (s : RState) (sender recipient : Addr) (amount : Int)
    (token : Addr) (note : String) (time : Int) (xP xN xF : Option Bool)
    (h1 : ¬ s.paused = true) (h2 : ¬ s.registered_users sender = false)
    (h3 : ¬ (s.supported_tokens token = false ∨ amount = 0))
    (h4 : ¬ check_daily_limit s sender amount time = false)
    (h5 : ¬ xferOk xP = false)
    (h6 : ¬ amount < platformFee s.platform_fee_percent amount)
    (h7 : ¬ xferOk xN = false)
    (h8 : 0 < platformFee s.platform_fee_percent amount ∧ xferOk xF = false) :
    send_payment s sender recipient amount token note time xP xN xF =
      (.error .transferFailed, s) := by
  unfold send_payment; rw [if_neg h1, if_neg h2, if_neg h3, if_neg h4, if_neg h5]
  dsimp only; rw [if_neg h6, if_neg h7, if_pos h8]

/-- Equation: fully successful `send_payment`. -/
theorem send_eq_ok (s : RState) (sender recipient : Addr) (amount : Int)
    (token : Addr) (note : String) (time : Int) (xP xN xF : Option Bool)
    (h1 : ¬ s.paused = true) (h2 : ¬ s.registered_users sender = false)
    (h3 : ¬ (s.supported_tokens token = false ∨ amount = 0))
    (h4 : ¬ check_daily_limit s sender amount time = false)
    (h5 : ¬ xferOk xP = false)
    (h6 : ¬ amount < platformFee s.platform_fee_percent amount)
    (h7 : ¬ xferOk xN = false)
    (h8 : ¬ (0 < platformFee s.platform_fee_percent amount ∧ xferOk xF = false)) :
    send_payment s sender recipient amount token note time xP xN xF =
      (.ok (), send_success_state s sender recipient amount token note time) := by
  unfold send_payment; rw [if_neg h1, if_neg h2, if_neg h3, if_neg h4, if_neg h5]
  dsimp only; rw [if_neg h6, if_neg h7, if_neg h8]; rfl

/-- Case analysis on `send_payment`: it is either an error leaving the
state unchanged (no internal state is mutated before the record phase), or
the full success. -/
theorem send_cases (s : RState) (sender recipient : Addr) (amount : Int)
    (token : Addr) (note : String) (time : Int) (xP xN xF : Option Bool) :
    (∃ e, send_payment s sender recipient amount token note time xP xN xF =
      (.error e, s)) ∨
    send_payment s sender recipient amount token note time xP xN xF =
      (.ok (), send_success_state s sender recipient amount token note time) := by
  by_cases h1 : s.paused = true
  · exact .inl ⟨_, send_eq_paused s sender recipient amount token note time xP xN xF h1⟩
  by_cases h2 : s.registered_users sender = false
  · exact .inl ⟨_, send_eq_not_registered s sender recipient amount token note time xP xN xF h1 h2⟩
  by_cases h3 : s.supported_tokens token = false ∨ amount = 0
  · exact .inl ⟨_, send_eq_invalid_config s sender recipient amount token note time xP xN xF h1 h2 h3⟩
  by_cases h4 : check_daily_limit s sender amount time = false
  · exact .inl ⟨_, send_eq_exceeds_limit s sender recipient amount token note time xP xN xF h1 h2 h3 h4⟩
  by_cases h5 : xferOk xP = false
  · exact .inl ⟨_, send_eq_pull_failed s sender recipient amount token note time xP xN xF h1 h2 h3 h4 h5⟩
  by_cases h6 : amount < platformFee s.platform_fee_percent amount
  · exact .inl ⟨_, send_eq_fee_underflow s sender recipient amount token note time xP xN xF h1 h2 h3 h4 h5 h6⟩
  by_cases h7 : xferOk xN = false
  · exact .inl ⟨_, send_eq_net_failed s sender recipient amount token note time xP xN xF h1 h2 h3 h4 h5 h6 h7⟩
  by_cases h8 : 0 < platformFee s.platform_fee_percent amount ∧ xferOk xF = false
  · exact .inl ⟨_, send_eq_fee_failed s sender recipient amount token note time xP xN xF h1 h2 h3 h4 h5 h6 h7 h8⟩
  · exact .inr (send_eq_ok s sender recipient amount token note time xP xN xF h1 h2 h3 h4 h5 h6 h7 h8)

/-- Pointwise description of the user map after `updUser`. -/
theorem updUser_users_eq (s : RState) (u : Addr) (f : UserProfile → UserProfile)
    (a : Addr) : (updUser s u f).users a = if a = u then f (s.users a) else s.users a := rfl

/-- Pointwise description of the beneficiary map after `updBen`. -/
theorem updBen_eq (s : RState) (u : Addr) (i : Int) (f : Beneficiary → Beneficiary)
    (a : Addr) (j : Int) :
    (updBen s u i f).user_beneficiaries a j =
      if a = u ∧ j = i then f (s.user_beneficiaries a j)
      else s.user_beneficiaries a j := rfl

/-- `execute_auto_payments` never touches the payment counter, the payment
records, the daily limits or the daily-spent accumulators. -/
theorem execute_frame_core (s : RState) (user : Addr) (i time : Int)
    (xN xF : Option Bool) :
    (execute_auto_payments s user i time xN xF).2.payment_count = s.payment_count ∧
    (execute_auto_payments s user i time xN xF).2.payments = s.payments ∧
    (execute_auto_payments s user i time xN xF).2.daily_limits = s.daily_limits ∧
    (execute_auto_payments s user i time xN xF).2.daily_spent = s.daily_spent := by
  rcases execute_cases s user i time xN xF with ⟨e, h⟩ | h | h <;> rw [h] <;>
    refine ⟨?_, ?_, ?_, ?_⟩ <;>
      simp [execute_success_state, execute_debit_state,
        apply_ite RState.payment_count, apply_ite RState.payments,
        apply_ite RState.daily_limits, apply_ite RState.daily_spent]

/-- The execution counter after a successful `execute_auto_payments`. -/
theorem execute_success_execution_count (s : RState) (user : Addr) (i time : Int) :
    (execute_success_state s user i time).execution_count = uadd s.execution_count 1 := by
  simp [execute_success_state, execute_debit_state, apply_ite RState.execution_count]

/-- The beneficiary record at the executed index after a successful
`execute_auto_payments`. -/
theorem execute_success_beneficiary (s : RState) (user : Addr) (i time : Int) :
    (execute_success_state s user i time).user_beneficiaries user i =
      { s.user_beneficiaries user i with
        last_payment := time,
        total_sent := uadd (s.user_beneficiaries user i).total_sent
          (s.user_beneficiaries user i).amount } := by
  simp [execute_success_state, execute_debit_state, updBen_eq,
    apply_ite (fun st : RState => st.user_beneficiaries user i)]

/-- Balance cells after a successful `execute_auto_payments` agree with the
debited state: only the debit touches the balance mapping. -/
theorem execute_success_balance (s : RState) (user : Addr) (i time : Int)
    (a t : Addr) :
    ((execute_success_state s user i time).users a).token_balances t =
      ((execute_debit_state s user i).users a).token_balances t := by
  simp [execute_success_state, updUser_users_eq,
    apply_ite (fun st : RState => (st.users a).token_balances t),
    apply_ite (fun p : UserProfile => p.token_balances t)]

/-- The payer's lifetime-sent counter after a successful
`execute_auto_payments`. -/
theorem execute_success_total_sent (s : RState) (user : Addr) (i time : Int) :
    ((execute_success_state s user i time).users user).total_sent =
      uadd ((s.users user).total_sent) (s.user_beneficiaries user i).amount := by
  simp [execute_success_state, execute_debit_state, updUser_users_eq, UserProfile.setBal,
    apply_ite (fun st : RState => (st.users user).total_sent),
    apply_ite (fun p : UserProfile => p.total_sent)]

/-- The registered recipient's lifetime-received counter after a
successful `execute_auto_payments`. -/
theorem execute_success_total_received (s : RState) (user : Addr) (i time : Int)
    (hreg : s.registered_users (s.user_beneficiaries user i).beneficiary_address = true) :
    ((execute_success_state s user i time).users
        (s.user_beneficiaries user i).beneficiary_address).total_received =
      uadd ((s.users (s.user_beneficiaries user i).beneficiary_address).total_received)
        ((s.user_beneficiaries user i).amount -
          platformFee s.platform_fee_percent (s.user_beneficiaries user i).amount) := by
  simp [execute_success_state, execute_debit_state, updUser_users_eq, UserProfile.setBal,
    hreg,
    apply_ite (fun st : RState =>
      (st.users (s.user_beneficiaries user i).beneficiary_address).total_received),
    apply_ite (fun p : UserProfile => p.total_received)]

/-- The payment counter after a successful `send_payment`. -/
theorem send_success_payment_count (s : RState) (sender recipient : Addr)
    (amount : Int) (token : Addr) (note : String) (time : Int) :
    (send_success_state s sender recipient amount token note time).payment_count =
      uadd s.payment_count 1 := by
  simp [send_success_state, apply_ite RState.payment_count]

/-- `send_payment` never touches the execution counter. -/
theorem send_success_execution_count (s : RState) (sender recipient : Addr)
    (amount : Int) (token : Addr) (note : String) (time : Int) :
    (send_success_state s sender recipient amount token note time).execution_count =
      s.execution_count := by
  simp [send_success_state, apply_ite RState.execution_count]

/-- The daily-spent accumulators after a successful `send_payment`: the
sender's cell for the current day is increased by the gross amount. -/
theorem send_success_daily_spent (s : RState) (sender recipient : Addr)
    (amount : Int) (token : Addr) (note : String) (time : Int) (a : Addr) (d : Int) :
    (send_success_state s sender recipient amount token note time).daily_spent a d =
      if a = sender ∧ d = time / 86400 then
        uadd (s.daily_spent sender (time / 86400)) amount
      else s.daily_spent a d := by
  simp [send_success_state, update_daily_spent, apply_ite RState.daily_spent]

/-- Balance cells are untouched by `send_payment`'s success state. -/
theorem send_success_balance (s : RState) (sender recipient : Addr)
    (amount : Int) (token : Addr) (note : String) (time : Int) (a t : Addr) :
    ((send_success_state s sender recipient amount token note time).users a).token_balances t =
      (s.users a).token_balances t := by
  simp [send_success_state, update_daily_spent, updUser_users_eq,
    apply_ite (fun st : RState => ((st.users a).token_balances t)),
    apply_ite (fun p : UserProfile => p.token_balances t)]


/-- Case analysis on `deposit_balance`. -/
theorem deposit_cases (s : RState) (sender token : Addr) (amount : Int)
    (x : Option Bool) :
    (∃ e, deposit_balance s sender token amount x = (.error e, s)) ∨
    deposit_balance s sender token amount x =
      (.ok (), deposit_state s sender token amount) := by
  by_cases h1 : s.paused = true
  · exact .inl ⟨_, deposit_eq_paused s sender token amount x h1⟩
  by_cases h2 : s.registered_users sender = false
  · exact .inl ⟨_, deposit_eq_not_registered s sender token amount x h1 h2⟩
  by_cases h3 : amount = 0
  · exact .inl ⟨_, deposit_eq_zero_amount s sender token amount x h1 h2 h3⟩
  by_cases h4 : s.supported_tokens token = false
  · exact .inl ⟨_, deposit_eq_unsupported s sender token amount x h1 h2 h3 h4⟩
  by_cases h5 : xferOk x = false
  · exact .inl ⟨_, deposit_eq_transfer_failed s sender token amount x h1 h2 h3 h4 h5⟩
  · exact .inr (deposit_eq_ok s sender token amount x h1 h2 h3 h4 h5)

/-- Case analysis on `withdraw_balance`, carrying the balance guard in the
debited cases. -/
theorem withdraw_cases (s : RState) (sender token : Addr) (amount : Int)
    (x : Option Bool) :
    (∃ e, withdraw_balance s sender token amount x = (.error e, s)) ∨
    (¬ (s.users sender).token_balances token < amount ∧
      (withdraw_balance s sender token amount x).2 =
        withdraw_debit_state s sender token amount) := by
  by_cases h1 : s.paused = true
  · exact .inl ⟨_, withdraw_eq_paused s sender token amount x h1⟩
  by_cases h2 : s.registered_users sender = false
  · exact .inl ⟨_, withdraw_eq_not_registered s sender token amount x h1 h2⟩
  by_cases h3 : s.supported_tokens token = false ∨ amount = 0
  · exact .inl ⟨_, withdraw_eq_invalid_config s sender token amount x h1 h2 h3⟩
  by_cases h4 : (s.users sender).token_balances token < amount
  · exact .inl ⟨_, withdraw_eq_insufficient s sender token amount x h1 h2 h3 h4⟩
  by_cases h5 : xferOk x = false
  · exact .inr ⟨h4, by rw [withdraw_eq_transfer_failed s sender token amount x h1 h2 h3 h4 h5]⟩
  · exact .inr ⟨h4, by rw [withdraw_eq_ok s sender token amount x h1 h2 h3 h4 h5]⟩

/-- Case analysis on the state left by `execute_auto_payments`, carrying
the balance guard in the debited cases. -/
theorem execute_state_cases (s : RState) (user : Addr) (i time : Int)
    (xN xF : Option Bool) :
    (execute_auto_payments s user i time xN xF).2 = s ∨
    (¬ (s.users user).token_balances (s.user_beneficiaries user i).token <
        (s.user_beneficiaries user i).amount ∧
      ((execute_auto_payments s user i time xN xF).2 = execute_debit_state s user i ∨
       (execute_auto_payments s user i time xN xF).2 =
         execute_success_state s user i time)) := by
  by_cases h1 : s.paused = true
  · exact .inl (by rw [execute_eq_paused s user i time xN xF h1])
  by_cases h2 : s.beneficiary_counts user ≤ i
  · exact .inl (by rw [execute_eq_not_found s user i time xN xF h1 h2])
  by_cases h3 : (s.user_beneficiaries user i).is_active = false ∨
      (s.user_beneficiaries user i).frequency = 0
  · exact .inl (by rw [execute_eq_invalid_config s user i time xN xF h1 h2 h3])
  by_cases h4 : 0 < (s.user_beneficiaries user i).last_payment ∧
      usub time (s.user_beneficiaries user i).last_payment <
        umul (s.user_beneficiaries user i).frequency 86400
  · exact .inl (by rw [execute_eq_frequency_not_met s user i time xN xF h1 h2 h3 h4])
  by_cases h5 : (s.users user).token_balances (s.user_beneficiaries user i).token <
      (s.user_beneficiaries user i).amount
  · exact .inl (by rw [execute_eq_insufficient s user i time xN xF h1 h2 h3 h4 h5])
  by_cases h6 : (s.user_beneficiaries user i).amount <
      platformFee s.platform_fee_percent (s.user_beneficiaries user i).amount
  · exact .inl (by rw [execute_eq_fee_underflow s user i time xN xF h1 h2 h3 h4 h5 h6])
  by_cases h7 : xferOk xN = false
  · exact .inr ⟨h5, .inl (by
      rw [execute_eq_net_transfer_failed s user i time xN xF h1 h2 h3 h4 h5 h6 h7])⟩
  by_cases h8 : 0 < platformFee s.platform_fee_percent (s.user_beneficiaries user i).amount ∧
      xferOk xF = false
  · exact .inr ⟨h5, .inl (by
      rw [execute_eq_fee_transfer_failed s user i time xN xF h1 h2 h3 h4 h5 h6 h7 h8])⟩
  · exact .inr ⟨h5, .inr (by
      rw [execute_eq_ok s user i time xN xF h1 h2 h3 h4 h5 h6 h7 h8])⟩

/-- A debited balance cell stays nonnegative: the source checks the balance
before every debit. -/
theorem balNonneg_withdraw_debit (s : RState) (sender token : Addr) (amount : Int)
    (h : BalNonneg s) (hge : ¬ (s.users sender).token_balances token < amount) :
    BalNonneg (withdraw_debit_state s sender token amount) := by
  intro a t
  unfold withdraw_debit_state
  rw [updUser_setBal_balance]
  split
  · exact sub_nonneg.mpr (not_lt.mp hge)
  · exact h a t

/-- The auto-payment debit preserves nonnegative balances. -/
theorem balNonneg_execute_debit (s : RState) (user : Addr) (i : Int)
    (h : BalNonneg s)
    (hge : ¬ (s.users user).token_balances (s.user_beneficiaries user i).token <
      (s.user_beneficiaries user i).amount) :
    BalNonneg (execute_debit_state s user i) := by
  intro a t
  unfold execute_debit_state
  rw [updUser_setBal_balance]
  split
  · exact sub_nonneg.mpr (not_lt.mp hge)
  · exact h a t

/-- One step of any balance-moving operation preserves nonnegative
balances. -/
theorem step_balNonneg (o : Op) (s : RState) (h : BalNonneg s) :
    BalNonneg (step o s) := by
  cases o with
  | deposit sender token amount x =>
    rcases deposit_cases s sender token amount x with ⟨e, he⟩ | he <;>
      simp only [step, he]
    · exact h
    · intro a t
      unfold deposit_state
      rw [updUser_setBal_balance]
      split
      · exact Int.emod_nonneg _ wordMod_ne_zero
      · exact h a t
  | withdraw sender token amount x =>
    rcases withdraw_cases s sender token amount x with ⟨e, he⟩ | ⟨hge, he⟩
    · simp only [step, he]; exact h
    · simp only [step, he]; exact balNonneg_withdraw_debit s sender token amount h hge
  | send sender recipient amount token note time xP xN xF =>
    rcases send_cases s sender recipient amount token note time xP xN xF with ⟨e, he⟩ | he <;>
      simp only [step, he]
    · exact h
    · intro a t
      rw [send_success_balance]
      exact h a t
  | execute user i time xN xF =>
    rcases execute_state_cases s user i time xN xF with he | ⟨hge, he | he⟩ <;>
      simp only [step, he]
    · exact h
    · exact balNonneg_execute_debit s user i h hge
    · intro a t
      rw [execute_success_balance]
      exact balNonneg_execute_debit s user i h hge a t

/-- Unfolding `run` over a cons cell. -/
theorem run_cons (o : Op) (ops : List Op) (s : RState) :
    run (o :: ops) s = run ops (step o s) := rfl

/-- Any sequence of balance-moving operations preserves nonnegative
balances. -/
theorem run_balNonneg (ops : List Op) (s : RState) (h : BalNonneg s) :
    BalNonneg (run ops s) := by
  induction ops generalizing s with
  | nil => exact h
  | cons o ops ih => rw [run_cons]; exact ih (step o s) (step_balNonneg o s h)

/-- The all-zero user profile (EVM storage default). -/
def profile0 : UserProfile :=
  { name := "", country := "", phone_number := "", is_active := false,
    total_sent := 0, total_received := 0, registration_time := 0,
    token_balances := fun _ => 0 }

/-- The all-zero beneficiary record (EVM storage default). -/
def ben0 : Beneficiary :=
  { beneficiary_address := 0, name := "", relationship := "", amount := 0,
    token := 0, frequency := 0, last_payment := 0, is_active := false,
    total_sent := 0 }

/-- The all-zero payment record (EVM storage default). -/
def pay0 : Payment :=
  { sender := 0, recipient := 0, amount := 0, token := 0, timestamp := 0,
    payment_type := 0, note := "", completed := false }

/-- A small concrete deployment: owner `1`, treasury `2`, default 50 bps fee,
users `10` and `11` registered, token `5` supported. -/
def baseState : RState :=
  { owner := 1, paused := false, treasury := 2, platform_fee_percent := 50,
    payment_count := 0, execution_count := 0,
    users := fun _ => profile0,
    registered_users := fun a => a == 10 || a == 11,
    user_beneficiaries := fun _ _ => ben0,
    beneficiary_counts := fun _ => 0,
    payments := fun _ => pay0,
    supported_tokens := fun t => t == 5,
    daily_limits := fun _ => 0,
    daily_spent := fun _ _ => 0 }

/-- An active daily beneficiary of user `10`, paying `50` of token `5`
to user `11`. -/
def benActive : Beneficiary :=
  { beneficiary_address := 11, name := "Bob", relationship := "friend",
    amount := 50, token := 5, frequency := 1, last_payment := 0,
    is_active := true, total_sent := 0 }

/-- `baseState` where user `10` owns one active beneficiary (`benActive` at
index `0`) and holds an internal balance of `1000` of token `5`. -/
def sBen : RState :=
  { baseState with
    users := fun a => if a = 10 then profile0.setBal 5 1000 else profile0,
    beneficiary_counts := fun a => if a = 10 then 1 else 0,
    user_beneficiaries := fun a i => if a = 10 ∧ i = 0 then benActive else ben0 }

/-- `baseState` with the pause flag set. -/
def pausedState : RState := { baseState with paused := true }

/-- `sBen` with every internal balance zero. -/
def sPoor : RState := { sBen with users := fun _ => profile0 }

/-- `benActive` with a nonzero last execution time. -/
def benLp : Beneficiary := { benActive with last_payment := 500 }

/-- `sBen` where the beneficiary has already been executed at time `500`. -/
def sFreq : RState :=
  { sBen with user_beneficiaries := fun a i => if a = 10 ∧ i = 0 then benLp else ben0 }

/-- C1: balances are nonnegative along every sequence of
`deposit_balance`/`withdraw_balance`/`send_payment`/`execute_auto_payments`
operations, and both `withdraw_balance` and `execute_auto_payments` reject
a request exceeding the account's internal balance for the token with
`InsufficientBalance`, without mutating any state. -/
theorem c1_no_negative_balances :
    (∀ (ops : List Op) (s : RState), BalNonneg s → BalNonneg (run ops s))
  ∧ (∀ (s : RState) (sender token : Addr) (amount : Int) (x : Option Bool),
      s.paused = false → s.registered_users sender = true →
      s.supported_tokens token = true → amount ≠ 0 →
      (s.users sender).token_balances token < amount →
      withdraw_balance s sender token amount x = (.error .insufficientBalance, s))
  ∧ (∀ (s : RState) (user : Addr) (i time : Int) (xN xF : Option Bool),
      s.paused = false → i < s.beneficiary_counts user →
      (s.user_beneficiaries user i).is_active = true →
      (s.user_beneficiaries user i).frequency ≠ 0 →
      ¬ (0 < (s.user_beneficiaries user i).last_payment ∧
          usub time (s.user_beneficiaries user i).last_payment <
            umul (s.user_beneficiaries user i).frequency 86400) →
      (s.users user).token_balances (s.user_beneficiaries user i).token <
        (s.user_beneficiaries user i).amount →
      execute_auto_payments s user i time xN xF = (.error .insufficientBalance, s)) := by
  refine ⟨run_balNonneg, ?_, ?_⟩
  · intro s sender token amount x hp hr hs ha hb
    exact withdraw_eq_insufficient s sender token amount x (by simp [hp]) (by simp [hr])
      (by simp [hs, ha]) hb
  · intro s user i time xN xF hp hi hact hfreq hgate hb
    exact execute_eq_insufficient s user i time xN xF (by simp [hp]) (not_le.mpr hi)
      (by simp [hact, hfreq]) hgate hb

/-- C1 witness: the invariant along a concrete two-operation run, and both
rejections at concrete insufficient-balance inputs. -/
theorem c1_no_negative_balances_witness :
    BalNonneg (run [Op.withdraw 10 5 100 (some true),
      Op.execute 10 0 1000 (some true) (some true)] sBen)
  ∧ withdraw_balance baseState 10 5 7 (some true) = (.error .insufficientBalance, baseState)
  ∧ execute_auto_payments sPoor 10 0 1000 (some true) (some true) =
      (.error .insufficientBalance, sPoor) := by
  refine ⟨c1_no_negative_balances.1 _ sBen ?_,
    c1_no_negative_balances.2.1 baseState 10 5 7 (some true) rfl rfl rfl (by decide)
      (by decide),
    c1_no_negative_balances.2.2 sPoor 10 0 1000 (some true) (some true) rfl (by decide)
      rfl (by decide) (by decide) (by decide)⟩
  intro a t
  by_cases ha : a = 10 <;>
    simp [sBen, baseState, profile0, UserProfile.setBal, ha] <;> split <;> norm_num

/-- C5: given that the pause, index, activity and nonzero-frequency guards
pass, and that timestamps do not wrap (the last execution is not in the
future and the quantities fit in a 256-bit word), `execute_auto_payments`
fails `FrequencyNotMet` exactly when `last_payment > 0` and
`current_time - last_payment < frequency * 86400`. -/
theorem c5_frequency_gate :
    ∀ (s : RState) (user : Addr) (i time : Int) (xN xF : Option Bool),
      s.paused = false → i < s.beneficiary_counts user →
      (s.user_beneficiaries user i).is_active = true →
      0 < (s.user_beneficiaries user i).frequency →
      (s.user_beneficiaries user i).frequency * 86400 < wordMod →
      0 ≤ (s.user_beneficiaries user i).last_payment →
      (s.user_beneficiaries user i).last_payment ≤ time →
      time - (s.user_beneficiaries user i).last_payment < wordMod →
      ((execute_auto_payments s user i time xN xF).1 = .error .frequencyNotMet ↔
        0 < (s.user_beneficiaries user i).last_payment ∧
          time - (s.user_beneficiaries user i).last_payment <
            (s.user_beneficiaries user i).frequency * 86400) := by
  intro s user i time xN xF hp hi hact hfreq hfw hlp0 hlpt htw
  have h1 : ¬ s.paused = true := by simp [hp]
  have h2 : ¬ s.beneficiary_counts user ≤ i := not_le.mpr hi
  have h3 : ¬ ((s.user_beneficiaries user i).is_active = false ∨
      (s.user_beneficiaries user i).frequency = 0) := by simp [hact, hfreq.ne']
  have husub : usub time (s.user_beneficiaries user i).last_payment =
      time - (s.user_beneficiaries user i).last_payment := by
    unfold usub
    exact Int.emod_eq_of_lt (by omega) htw
  have humul : umul (s.user_beneficiaries user i).frequency 86400 =
      (s.user_beneficiaries user i).frequency * 86400 :=
    Int.emod_eq_of_lt (by positivity) hfw
  constructor
  · intro h
    by_cases h4 : 0 < (s.user_beneficiaries user i).last_payment ∧
        usub time (s.user_beneficiaries user i).last_payment <
          umul (s.user_beneficiaries user i).frequency 86400
    · exact ⟨h4.1, by rw [husub, humul] at h4; exact h4.2⟩
    exfalso
    by_cases h5 : (s.users user).token_balances (s.user_beneficiaries user i).token <
        (s.user_beneficiaries user i).amount
    · rw [execute_eq_insufficient s user i time xN xF h1 h2 h3 h4 h5] at h
      simp at h
    by_cases h6 : (s.user_beneficiaries user i).amount <
        platformFee s.platform_fee_percent (s.user_beneficiaries user i).amount
    · rw [execute_eq_fee_underflow s user i time xN xF h1 h2 h3 h4 h5 h6] at h
      simp at h
    by_cases h7 : xferOk xN = false
    · rw [execute_eq_net_transfer_failed s user i time xN xF h1 h2 h3 h4 h5 h6 h7] at h
      simp at h
    by_cases h8 : 0 < platformFee s.platform_fee_percent (s.user_beneficiaries user i).amount ∧
        xferOk xF = false
    · rw [execute_eq_fee_transfer_failed s user i time xN xF h1 h2 h3 h4 h5 h6 h7 h8] at h
      simp at h
    · rw [execute_eq_ok s user i time xN xF h1 h2 h3 h4 h5 h6 h7 h8] at h
      simp at h
  · intro hc
    rw [execute_eq_frequency_not_met s user i time xN xF h1 h2 h3
      ⟨hc.1, by rw [husub, humul]; exact hc.2⟩]

/-- C5 witness: the gate at concrete inputs, in both directions. -/
theorem c5_frequency_gate_witness :
    (execute_auto_payments sFreq 10 0 600 (some true) (some true)).1 =
      .error .frequencyNotMet
  ∧ ¬ (execute_auto_payments sFreq 10 0 (500 + 86400) (some true) (some true)).1 =
      .error .frequencyNotMet := by
  constructor
  · exact (c5_frequency_gate sFreq 10 0 600 (some true) (some true) rfl (by decide) rfl
      (by decide) (by norm_num [sFreq, benLp, benActive, wordMod]) (by decide) (by decide)
      (by norm_num [sFreq, benLp, benActive, wordMod])).mpr (by decide)
  · intro h
    have := (c5_frequency_gate sFreq 10 0 (500 + 86400) (some true) (some true) rfl
      (by decide) rfl (by decide) (by norm_num [sFreq, benLp, benActive, wordMod])
      (by decide) (by decide)
      (by norm_num [sFreq, benLp, benActive, wordMod])).mp h
    revert this
    decide

/-- C7: `withdraw_balance` applies the internal debit before invoking the
external push-transfer; when that transfer fails (reverts or returns
`false`), the operation fails `TransferFailed` while the debit remains in
place. -/
theorem c7_withdraw_no_rollback :
    ∀ (s : RState) (sender token : Addr) (amount : Int) (x : Option Bool),
      s.paused = false → s.registered_users sender = true →
      s.supported_tokens token = true → amount ≠ 0 →
      amount ≤ (s.users sender).token_balances token →
      xferOk x = false →
      withdraw_balance s sender token amount x =
        (.error .transferFailed, withdraw_debit_state s sender token amount)
      ∧ ((withdraw_balance s sender token amount x).2.users sender).token_balances token =
          (s.users sender).token_balances token - amount := by
  intro s sender token amount x hp hr hs ha hle hx
  have he := withdraw_eq_transfer_failed s sender token amount x (by simp [hp])
    (by simp [hr]) (by simp [hs, ha]) (not_lt.mpr hle) hx
  refine ⟨he, ?_⟩
  rw [he]
  unfold withdraw_debit_state
  rw [updUser_setBal_balance]
  simp

/-- C7 witness: a concrete failing withdrawal leaves the debit behind. -/
theorem c7_withdraw_no_rollback_witness :
    withdraw_balance sBen 10 5 100 (some false) =
      (.error .transferFailed, withdraw_debit_state sBen 10 5 100)
  ∧ ((withdraw_balance sBen 10 5 100 (some false)).2.users 10).token_balances 5 =
      (sBen.users 10).token_balances 5 - 100 :=
  c7_withdraw_no_rollback sBen 10 5 100 (some false) rfl rfl rfl (by decide) (by decide) rfl

/-- The fee never exceeds the amount for any word-sized amount and any rate
of at most 100 bps, wrap-around included: the `checked_sub` in the source
can only fail if the rate exceeds 10000. -/
theorem platformFee_le (bps amount : Int) (ha : 0 ≤ amount) (haw : amount < wordMod)
    (hb : 0 ≤ bps) (hb100 : bps ≤ 100) : platformFee bps amount ≤ amount := by
  unfold platformFee umul
  by_cases hx : amount * bps < wordMod
  · rw [Int.emod_eq_of_lt (mul_nonneg ha hb) hx]
    calc amount * bps / 10000
        ≤ amount * 10000 / 10000 :=
          Int.ediv_le_ediv (by norm_num)
            (mul_le_mul_of_nonneg_left (le_trans hb100 (by norm_num)) ha)
      _ = amount := Int.mul_ediv_cancel _ (by norm_num)
  · have h1 : amount * bps % wordMod ≤ wordMod - 1 := by
      have := Int.emod_lt_of_pos (amount * bps)
        (show (0:Int) < wordMod by norm_num [wordMod])
      omega
    have h2 : amount * bps % wordMod / 10000 ≤ (wordMod - 1) / 10000 :=
      Int.ediv_le_ediv (by norm_num) h1
    have h3 : wordMod ≤ 100 * amount := by
      calc wordMod ≤ amount * bps := not_lt.mp hx
        _ ≤ amount * 100 := mul_le_mul_of_nonneg_left hb100 ha
        _ = 100 * amount := mul_comm _ _
    have h4 : wordMod / 100 ≤ amount := by
      have h5 := Int.ediv_le_ediv (show (0:Int) < 100 by norm_num) h3
      rwa [Int.mul_ediv_cancel_left _ (by norm_num)] at h5
    have h6 : (wordMod - 1) / 10000 ≤ wordMod / 100 := by decide
    exact le_trans h2 (le_trans h6 h4)

/-- C2 (amended): the fee computed by `send_payment` and
`execute_auto_payments` is `floor((amount * bps mod 2^256) / 10000)`,
which equals `floor(amount * bps / 10000)` whenever `amount * bps` fits in
a 256-bit word; for every word-sized amount and every rate in `[0, 100]`
the fee is at most the amount, so `net + fee = amount` exactly;
`update_platform_fee` rejects every rate above 100 bps with
`InvalidConfiguration`, and the stored rate stays in `[0, 100]`. -/
theorem c2_fee_policy_amended :
    (∀ amount bps : Int, 0 ≤ amount → 0 ≤ bps → amount * bps < wordMod →
      platformFee bps amount = amount * bps / 10000)
  ∧ (∀ amount bps : Int, 0 ≤ amount → amount < wordMod → 0 ≤ bps → bps ≤ 100 →
      platformFee bps amount ≤ amount ∧
        (amount - platformFee bps amount) + platformFee bps amount = amount)
  ∧ (∀ (s : RState) (sender : Addr) (newFee : Int), sender = s.owner → 100 < newFee →
      update_platform_fee s sender newFee = (.error .invalidConfiguration, s))
  ∧ (∀ (s : RState) (sender : Addr) (newFee : Int), 0 ≤ newFee →
      0 ≤ s.platform_fee_percent → s.platform_fee_percent ≤ 100 →
      0 ≤ (update_platform_fee s sender newFee).2.platform_fee_percent ∧
        (update_platform_fee s sender newFee).2.platform_fee_percent ≤ 100) := by
  refine ⟨?_, ?_, ?_, ?_⟩
  · intro amount bps ha hb hw
    unfold platformFee umul
    rw [Int.emod_eq_of_lt (mul_nonneg ha hb) hw]
  · intro amount bps ha haw hb hb100
    exact ⟨platformFee_le bps amount ha haw hb hb100, by ring⟩
  · intro s sender newFee hsend hf
    unfold update_platform_fee
    rw [if_neg (by simp [hsend]), if_pos hf]
  · intro s sender newFee h0 hl hu
    unfold update_platform_fee
    by_cases ho : sender ≠ s.owner
    · rw [if_pos ho]; exact ⟨hl, hu⟩
    rw [if_neg ho]
    by_cases hf : 100 < newFee
    · rw [if_pos hf]; exact ⟨hl, hu⟩
    · rw [if_neg hf]; exact ⟨h0, not_lt.mp hf⟩

/-- C2 counterexample to the claim as stated: at `amount = 2^255` and the
deployed 50 bps rate, the release-mode `U256` product wraps, the computed
fee is `0` rather than `floor(amount * 50 / 10000)`, and a successful
`send_payment` of `2^255` forwards the full gross amount to the
recipient. -/
theorem c2_fee_policy_counterexample :
    platformFee 50 (2 ^ 255) = 0
  ∧ (2 ^ 255 : Int) * 50 / 10000 ≠ 0
  ∧ (send_payment sBen 10 11 (2 ^ 255) 5 "x" 0 (some true) (some true) (some true)).1 =
      .ok ()
  ∧ ((send_payment sBen 10 11 (2 ^ 255) 5 "x" 0 (some true) (some true)
      (some true)).2.users 11).total_received = 2 ^ 255 :=
  ⟨by decide, by decide, rfl, rfl⟩

/-- C2 witness: the amended statement at the deployed 50 bps rate. -/
theorem c2_fee_policy_amended_witness :
    platformFee 50 10000 = 10000 * 50 / 10000
  ∧ (platformFee 50 10000 ≤ 10000 ∧
      (10000 - platformFee 50 10000) + platformFee 50 10000 = 10000)
  ∧ update_platform_fee baseState 1 200 = (.error .invalidConfiguration, baseState)
  ∧ (0 ≤ (update_platform_fee baseState 1 80).2.platform_fee_percent ∧
      (update_platform_fee baseState 1 80).2.platform_fee_percent ≤ 100) :=
  ⟨c2_fee_policy_amended.1 10000 50 (by norm_num) (by norm_num) (by norm_num [wordMod]),
   c2_fee_policy_amended.2.1 10000 50 (by norm_num) (by norm_num [wordMod]) (by norm_num)
     (by norm_num),
   c2_fee_policy_amended.2.2.1 baseState 1 200 rfl (by norm_num),
   c2_fee_policy_amended.2.2.2 baseState 1 80 (by norm_num) (by decide) (by decide)⟩

/-- C10: an `execute_auto_payments` call leaves `payment_count`, the
`payments` record map, `daily_limits` and the `daily_spent` accumulators
unchanged (in particular every successful call does): an auto-payment
execution records no `Payment` and neither checks nor records the daily
spending limit. -/
theorem c10_execute_frame :
    ∀ (s : RState) (user : Addr) (i time : Int) (xN xF : Option Bool),
      (execute_auto_payments s user i time xN xF).2.payment_count = s.payment_count ∧
      (execute_auto_payments s user i time xN xF).2.payments = s.payments ∧
      (execute_auto_payments s user i time xN xF).2.daily_limits = s.daily_limits ∧
      (execute_auto_payments s user i time xN xF).2.daily_spent = s.daily_spent := by
  intro s user i time xN xF
  rcases execute_cases s user i time xN xF with ⟨e, h⟩ | h | h <;> rw [h] <;>
    refine ⟨?_, ?_, ?_, ?_⟩ <;>
      simp [execute_success_state, execute_debit_state,
        apply_ite RState.payment_count, apply_ite RState.payments,
        apply_ite RState.daily_limits, apply_ite RState.daily_spent]

/-- C4 (amended): with the pause flag set, every non-admin mutating
operation fails `ContractPaused` without mutating state; the owner-only
admin operations are not pause-gated (they succeed for the owner, paused or
not); view operations never consult the pause flag. -/
theorem c4_pause_gating_amended :
    (∀ s sender name country phone time, s.paused = true →
      register_user s sender name country phone time = (.error .contractPaused, s))
  ∧ (∀ s sender token amount x, s.paused = true →
      deposit_balance s sender token amount x = (.error .contractPaused, s))
  ∧ (∀ s sender token amount x, s.paused = true →
      withdraw_balance s sender token amount x = (.error .contractPaused, s))
  ∧ (∀ s sender recipient amount token note time xP xN xF, s.paused = true →
      send_payment s sender recipient amount token note time xP xN xF =
        (.error .contractPaused, s))
  ∧ (∀ s sender baddr name rel amount token freq, s.paused = true →
      add_beneficiary s sender baddr name rel amount token freq =
        (.error .contractPaused, s))
  ∧ (∀ s sender i amount freq, s.paused = true →
      update_beneficiary s sender i amount freq = (.error .contractPaused, s))
  ∧ (∀ s sender i, s.paused = true →
      remove_beneficiary s sender i = (.error .contractPaused, s))
  ∧ (∀ s user i time xN xF, s.paused = true →
      execute_auto_payments s user i time xN xF = (.error .contractPaused, s))
  ∧ (∀ s entries time, s.paused = true →
      batch_execute_auto_payments s entries time = (.error .contractPaused, s))
  ∧ (∀ s token, (add_supported_token s s.owner token).1 = .ok ())
  ∧ (∀ s token, (remove_supported_token s s.owner token).1 = .ok ())
  ∧ (∀ s user limit, (set_daily_limit s s.owner user limit).1 = .ok ())
  ∧ (∀ s, (pause s s.owner).1 = .ok ())
  ∧ (∀ s, (unpause s s.owner).1 = .ok ())
  ∧ (∀ s fee, fee ≤ 100 → (update_platform_fee s s.owner fee).1 = .ok ())
  ∧ (∀ s t, t ≠ 0 → (update_treasury s s.owner t).1 = .ok ())
  ∧ (∀ s token amount x, xferOk x = true →
      (emergency_withdraw s s.owner token amount x).1 = .ok ())
  ∧ (∀ s user token,
      get_user_balance { s with paused := true } user token = get_user_balance s user token)
  ∧ (∀ s user, get_user_profile { s with paused := true } user = get_user_profile s user)
  ∧ (∀ s user i,
      get_beneficiary { s with paused := true } user i = get_beneficiary s user i)
  ∧ (∀ s pid, get_payment { s with paused := true } pid = get_payment s pid)
  ∧ (∀ s user time,
      get_daily_spent { s with paused := true } user time = get_daily_spent s user time)
  ∧ (∀ s user i time,
      estimate_next_payment_time { s with paused := true } user i time =
        estimate_next_payment_time s user i time) := by
  refine ⟨?_, ?_, ?_, ?_, ?_, ?_, ?_, ?_, ?_, ?_, ?_, ?_, ?_, ?_, ?_, ?_, ?_,
    fun s user token => rfl, fun s user => rfl, fun s user i => rfl,
    fun s pid => rfl, fun s user time => rfl, fun s user i time => rfl⟩
  · intro s sender name country phone time h; simp [register_user, h]
  · intro s sender token amount x h; simp [deposit_balance, h]
  · intro s sender token amount x h; simp [withdraw_balance, h]
  · intro s sender recipient amount token note time xP xN xF h; simp [send_payment, h]
  · intro s sender baddr name rel amount token freq h; simp [add_beneficiary, h]
  · intro s sender i amount freq h; simp [update_beneficiary, h]
  · intro s sender i h; simp [remove_beneficiary, h]
  · intro s user i time xN xF h; simp [execute_auto_payments, h]
  · intro s entries time h; simp [batch_execute_auto_payments, h]
  · intro s token; simp [add_supported_token]
  · intro s token; simp [remove_supported_token]
  · intro s user limit; simp [set_daily_limit]
  · intro s; simp [pause]
  · intro s; simp [unpause]
  · intro s fee h; simp [update_platform_fee, not_lt.mpr h]
  · intro s t h; simp [update_treasury, h]
  · intro s token amount x h; simp [emergency_withdraw, h]

/-- C4 witness: the amended statement at a concrete paused deployment. -/
theorem c4_pause_gating_amended_witness :
    deposit_balance pausedState 10 5 100 (some true) = (.error .contractPaused, pausedState)
  ∧ (update_platform_fee pausedState 1 80).1 = .ok () := by
  exact ⟨c4_pause_gating_amended.2.1 pausedState 10 5 100 (some true) rfl,
    c4_pause_gating_amended.2.2.2.2.2.2.2.2.2.2.2.2.2.2.1 pausedState 80 (by norm_num)⟩

/-- C4 counterexample to the claim as stated: with the pause flag set, the
mutating (non-unpause) operation `add_supported_token`, invoked by the
owner, succeeds and mutates state instead of failing `ContractPaused`. -/
theorem c4_pause_gating_counterexample :
    pausedState.paused = true
  ∧ (add_supported_token pausedState 1 7).1 = .ok ()
  ∧ (add_supported_token pausedState 1 7).2.supported_tokens 7 = true
  ∧ pausedState.supported_tokens 7 = false := ⟨rfl, rfl, rfl, rfl⟩

/-- C8: `payment_count` increases by exactly 1 per successful
`send_payment` and `execution_count` by exactly 1 per successful
`execute_auto_payments` (exact as long as the once-per-call counter has not
reached `2^256 - 1`); `get_payment` on any id at or past `payment_count`
always fails; and no balance-moving operation ever decreases either
counter, so allocated identifiers are never reused. -/
theorem c8_monotonic_identifiers :
    (∀ (s : RState) (sender recipient : Addr) (amount : Int) (token : Addr)
        (note : String) (time : Int) (xP xN xF : Option Bool),
      (send_payment s sender recipient amount token note time xP xN xF).1 = .ok () →
      0 ≤ s.payment_count → s.payment_count + 1 < wordMod →
      (send_payment s sender recipient amount token note time xP xN xF).2.payment_count =
        s.payment_count + 1)
  ∧ (∀ (s : RState) (user : Addr) (i time : Int) (xN xF : Option Bool),
      (execute_auto_payments s user i time xN xF).1 = .ok () →
      0 ≤ s.execution_count → s.execution_count + 1 < wordMod →
      (execute_auto_payments s user i time xN xF).2.execution_count =
        s.execution_count + 1)
  ∧ (∀ (s : RState) (pid : Int), s.payment_count ≤ pid →
      get_payment s pid = .error .invalidConfiguration)
  ∧ (∀ (o : Op) (s : RState),
      0 ≤ s.payment_count → s.payment_count + 1 < wordMod →
      0 ≤ s.execution_count → s.execution_count + 1 < wordMod →
      s.payment_count ≤ (step o s).payment_count ∧
        s.execution_count ≤ (step o s).execution_count) := by
  refine ⟨?_, ?_, ?_, ?_⟩
  · intro s sender recipient amount token note time xP xN xF hok h0 hw
    rcases send_cases s sender recipient amount token note time xP xN xF with ⟨e, he⟩ | he
    · rw [he] at hok; simp at hok
    · rw [he, send_success_payment_count]
      unfold uadd
      exact Int.emod_eq_of_lt (by omega) hw
  · intro s user i time xN xF hok h0 hw
    rcases execute_cases s user i time xN xF with ⟨e, he⟩ | he | he
    · rw [he] at hok; simp at hok
    · rw [he] at hok; simp at hok
    · rw [he, execute_success_execution_count]
      unfold uadd
      exact Int.emod_eq_of_lt (by omega) hw
  · intro s pid h
    unfold get_payment
    rw [if_pos h]
  · intro o s hp0 hpw he0 hew
    cases o with
    | deposit sender token amount x =>
      rcases deposit_cases s sender token amount x with ⟨e, he⟩ | he <;>
        simp [step, he, deposit_state]
    | withdraw sender token amount x =>
      rcases withdraw_cases s sender token amount x with ⟨e, he⟩ | ⟨hge, he⟩ <;>
        simp [step, he, withdraw_debit_state]
    | send sender recipient amount token note time xP xN xF =>
      rcases send_cases s sender recipient amount token note time xP xN xF with ⟨e, he⟩ | he <;>
        simp only [step, he]
      · exact ⟨le_refl _, le_refl _⟩
      · rw [send_success_payment_count, send_success_execution_count]
        unfold uadd
        rw [Int.emod_eq_of_lt (by omega) hpw]
        omega
    | execute user i time xN xF =>
      refine ⟨le_of_eq (execute_frame_core s user i time xN xF).1.symm, ?_⟩
      rcases execute_cases s user i time xN xF with ⟨e, he⟩ | he | he <;>
        simp only [step, he]
      · exact le_refl _
      · simp [execute_debit_state]
      · rw [execute_success_execution_count]
        unfold uadd
        rw [Int.emod_eq_of_lt (by omega) hew]
        omega

/-- C8 witness: the counters at concrete successful operations, and an
out-of-range `get_payment`. -/
theorem c8_monotonic_identifiers_witness :
    (send_payment sBen 10 11 100 5 "x" 0 (some true) (some true) (some true)).2.payment_count =
      sBen.payment_count + 1
  ∧ (execute_auto_payments sBen 10 0 1000 (some true) (some true)).2.execution_count =
      sBen.execution_count + 1
  ∧ get_payment baseState 0 = .error .invalidConfiguration
  ∧ (sBen.payment_count ≤
      (step (Op.deposit 10 5 100 (some true)) sBen).payment_count ∧
      sBen.execution_count ≤
        (step (Op.deposit 10 5 100 (some true)) sBen).execution_count) :=
  ⟨c8_monotonic_identifiers.1 sBen 10 11 100 5 "x" 0 (some true) (some true) (some true)
     rfl (by decide) (by decide),
   c8_monotonic_identifiers.2.1 sBen 10 0 1000 (some true) (some true) rfl (by decide)
     (by decide),
   c8_monotonic_identifiers.2.2.1 baseState 0 (by decide),
   c8_monotonic_identifiers.2.2.2 (Op.deposit 10 5 100 (some true)) sBen (by decide)
     (by decide) (by decide) (by decide)⟩

/-- `baseState` with a daily limit of `1` for user `10` and a day-0
accumulator one below the word modulus: the wrap-around input. -/
def sWrap : RState :=
  { baseState with
    daily_limits := fun a => if a = 10 then 1 else 0,
    daily_spent := fun a d => if a = 10 ∧ d = 0 then wordMod - 1 else 0 }

/-- `baseState` with a daily limit of `100` and `30` already spent today. -/
def sLimit : RState :=
  { baseState with
    daily_limits := fun a => if a = 10 then 100 else 0,
    daily_spent := fun a d => if a = 10 ∧ d = 0 then 30 else 0 }

/-- C9 counterexample to the claim as stated: with limit `1`, `2^256 - 1`
already spent today and a requested amount of `2`, the release-mode `U256`
sum wraps to `1`, so `check_daily_limit` passes even though
`spent_today + amount` vastly exceeds the limit. -/
theorem c9_daily_limit_counterexample :
    check_daily_limit sWrap 10 2 0 = true
  ∧ ¬ ((wordMod - 1) + 2 ≤ 1)
  ∧ sWrap.daily_limits 10 = 1
  ∧ sWrap.daily_spent 10 0 = wordMod - 1 := ⟨by decide, by decide, rfl, rfl⟩

/-- C9 (amended): the daily-limit check passes whenever the configured
limit is `0`, and otherwise passes iff
`(spent_today + amount) mod 2^256 ≤ limit`, which coincides with
`spent_today + amount ≤ limit` whenever the sum fits in a 256-bit word; on
every successful `send_payment` the sender's daily-spent accumulator for
the current day increases (mod `2^256`) by the gross, pre-fee amount. -/
theorem c9_daily_limit_amended :
    (∀ (s : RState) (user : Addr) (amount time : Int),
      s.daily_limits user = 0 → check_daily_limit s user amount time = true)
  ∧ (∀ (s : RState) (user : Addr) (amount time : Int),
      s.daily_limits user ≠ 0 →
      (check_daily_limit s user amount time = true ↔
        uadd (s.daily_spent user (time / 86400)) amount ≤ s.daily_limits user))
  ∧ (∀ (s : RState) (user : Addr) (amount time : Int),
      s.daily_limits user ≠ 0 →
      0 ≤ s.daily_spent user (time / 86400) + amount →
      s.daily_spent user (time / 86400) + amount < wordMod →
      (check_daily_limit s user amount time = true ↔
        s.daily_spent user (time / 86400) + amount ≤ s.daily_limits user))
  ∧ (∀ (s : RState) (sender recipient : Addr) (amount : Int) (token : Addr)
        (note : String) (time : Int) (xP xN xF : Option Bool),
      (send_payment s sender recipient amount token note time xP xN xF).1 = .ok () →
      (send_payment s sender recipient amount token note time xP xN xF).2.daily_spent
          sender (time / 86400) =
        uadd (s.daily_spent sender (time / 86400)) amount) := by
  refine ⟨?_, ?_, ?_, ?_⟩
  · intro s user amount time h
    unfold check_daily_limit
    rw [if_pos h]
  · intro s user amount time h
    unfold check_daily_limit
    rw [if_neg h]
    simp
  · intro s user amount time h h0 hw
    unfold check_daily_limit
    dsimp only
    rw [if_neg h]
    unfold uadd
    rw [Int.emod_eq_of_lt h0 hw]
    simp
  · intro s sender recipient amount token note time xP xN xF hok
    rcases send_cases s sender recipient amount token note time xP xN xF with ⟨e, he⟩ | he
    · rw [he] at hok; simp at hok
    · rw [he, send_success_daily_spent]
      simp

/-- C9 witness: the amended statement at concrete inputs. -/
theorem c9_daily_limit_amended_witness :
    check_daily_limit baseState 10 100 0 = true
  ∧ check_daily_limit sLimit 10 20 0 = true
  ∧ (send_payment sBen 10 11 100 5 "x" 0 (some true) (some true) (some true)).2.daily_spent
      10 0 = uadd (sBen.daily_spent 10 0) 100 :=
  ⟨c9_daily_limit_amended.1 baseState 10 100 0 rfl,
   (c9_daily_limit_amended.2.2.1 sLimit 10 20 0 (by decide) (by decide) (by decide)).mpr
     (by decide),
   c9_daily_limit_amended.2.2.2 sBen 10 11 100 5 "x" 0 (some true) (some true) (some true)
     rfl⟩

/-- C6: on every successful `execute_auto_payments(user, index)` call (with
the per-field word-size bounds that a once-per-call counter and real token
supplies always satisfy): the payer's internal balance for the
beneficiary's token decreases by the gross configured amount, the
beneficiary's `last_payment` is set to the current time, the beneficiary's
`total_sent` and the payer's lifetime `total_sent` each increase by the
gross amount, the beneficiary's lifetime `total_received` increases by the
net amount if the beneficiary address is registered, and the global
execution counter allocates the next identifier. -/
theorem c6_execute_success_postconditions :
    ∀ (s : RState) (user : Addr) (i time : Int) (xN xF : Option Bool),
      (execute_auto_payments s user i time xN xF).1 = .ok () →
      0 ≤ (s.user_beneficiaries user i).amount →
      0 ≤ (s.user_beneficiaries user i).total_sent →
      (s.user_beneficiaries user i).total_sent +
        (s.user_beneficiaries user i).amount < wordMod →
      0 ≤ (s.users user).total_sent →
      (s.users user).total_sent + (s.user_beneficiaries user i).amount < wordMod →
      0 ≤ (s.users (s.user_beneficiaries user i).beneficiary_address).total_received →
      (s.users (s.user_beneficiaries user i).beneficiary_address).total_received +
        ((s.user_beneficiaries user i).amount -
          platformFee s.platform_fee_percent (s.user_beneficiaries user i).amount) <
        wordMod →
      0 ≤ s.execution_count → s.execution_count + 1 < wordMod →
      ((execute_auto_payments s user i time xN xF).2.users user).token_balances
          (s.user_beneficiaries user i).token =
        (s.users user).token_balances (s.user_beneficiaries user i).token -
          (s.user_beneficiaries user i).amount
      ∧ ((execute_auto_payments s user i time xN xF).2.user_beneficiaries user
          i).last_payment = time
      ∧ ((execute_auto_payments s user i time xN xF).2.user_beneficiaries user
          i).total_sent =
          (s.user_beneficiaries user i).total_sent + (s.user_beneficiaries user i).amount
      ∧ ((execute_auto_payments s user i time xN xF).2.users user).total_sent =
          (s.users user).total_sent + (s.user_beneficiaries user i).amount
      ∧ (s.registered_users (s.user_beneficiaries user i).beneficiary_address = true →
          ((execute_auto_payments s user i time xN xF).2.users
              (s.user_beneficiaries user i).beneficiary_address).total_received =
            (s.users (s.user_beneficiaries user i).beneficiary_address).total_received +
              ((s.user_beneficiaries user i).amount -
                platformFee s.platform_fee_percent (s.user_beneficiaries user i).amount))
      ∧ (execute_auto_payments s user i time xN xF).2.execution_count =
          s.execution_count + 1 := by
  intro s user i time xN xF hok hA0 hbt0 hbtw hut0 hutw hrc0 hrcw hec0 hecw
  by_cases h1 : s.paused = true
  · rw [execute_eq_paused s user i time xN xF h1] at hok; simp at hok
  by_cases h2 : s.beneficiary_counts user ≤ i
  · rw [execute_eq_not_found s user i time xN xF h1 h2] at hok; simp at hok
  by_cases h3 : (s.user_beneficiaries user i).is_active = false ∨
      (s.user_beneficiaries user i).frequency = 0
  · rw [execute_eq_invalid_config s user i time xN xF h1 h2 h3] at hok; simp at hok
  by_cases h4 : 0 < (s.user_beneficiaries user i).last_payment ∧
      usub time (s.user_beneficiaries user i).last_payment <
        umul (s.user_beneficiaries user i).frequency 86400
  · rw [execute_eq_frequency_not_met s user i time xN xF h1 h2 h3 h4] at hok; simp at hok
  by_cases h5 : (s.users user).token_balances (s.user_beneficiaries user i).token <
      (s.user_beneficiaries user i).amount
  · rw [execute_eq_insufficient s user i time xN xF h1 h2 h3 h4 h5] at hok; simp at hok
  by_cases h6 : (s.user_beneficiaries user i).amount <
      platformFee s.platform_fee_percent (s.user_beneficiaries user i).amount
  · rw [execute_eq_fee_underflow s user i time xN xF h1 h2 h3 h4 h5 h6] at hok; simp at hok
  by_cases h7 : xferOk xN = false
  · rw [execute_eq_net_transfer_failed s user i time xN xF h1 h2 h3 h4 h5 h6 h7] at hok
    simp at hok
  by_cases h8 : 0 < platformFee s.platform_fee_percent (s.user_beneficiaries user i).amount ∧
      xferOk xF = false
  · rw [execute_eq_fee_transfer_failed s user i time xN xF h1 h2 h3 h4 h5 h6 h7 h8] at hok
    simp at hok
  have hfee := not_lt.mp h6
  have h2nd : (execute_auto_payments s user i time xN xF).2 =
      execute_success_state s user i time := by
    rw [execute_eq_ok s user i time xN xF h1 h2 h3 h4 h5 h6 h7 h8]
  rw [h2nd]
  refine ⟨?_, ?_, ?_, ?_, ?_, ?_⟩
  · rw [execute_success_balance]
    unfold execute_debit_state
    rw [updUser_setBal_balance]
    simp
  · rw [execute_success_beneficiary]
  · rw [execute_success_beneficiary]
    show uadd (s.user_beneficiaries user i).total_sent (s.user_beneficiaries user i).amount = _
    unfold uadd
    exact Int.emod_eq_of_lt (by omega) hbtw
  · rw [execute_success_total_sent]
    unfold uadd
    exact Int.emod_eq_of_lt (by omega) hutw
  · intro hreg
    rw [execute_success_total_received s user i time hreg]
    unfold uadd
    exact Int.emod_eq_of_lt (by omega) hrcw
  · rw [execute_success_execution_count]
    unfold uadd
    exact Int.emod_eq_of_lt (by omega) hecw

/-- C6 witness: the postconditions at a concrete successful execution
(`sBen`, amount 50, fee 0, recipient 11 registered). -/
theorem c6_execute_success_postconditions_witness :
    ((execute_auto_payments sBen 10 0 1000 (some true) (some true)).2.users
        10).token_balances (sBen.user_beneficiaries 10 0).token =
      (sBen.users 10).token_balances (sBen.user_beneficiaries 10 0).token -
        (sBen.user_beneficiaries 10 0).amount
  ∧ ((execute_auto_payments sBen 10 0 1000 (some true) (some true)).2.user_beneficiaries
      10 0).last_payment = 1000
  ∧ ((execute_auto_payments sBen 10 0 1000 (some true) (some true)).2.user_beneficiaries
      10 0).total_sent =
      (sBen.user_beneficiaries 10 0).total_sent + (sBen.user_beneficiaries 10 0).amount
  ∧ ((execute_auto_payments sBen 10 0 1000 (some true) (some true)).2.users 10).total_sent =
      (sBen.users 10).total_sent + (sBen.user_beneficiaries 10 0).amount
  ∧ (sBen.registered_users (sBen.user_beneficiaries 10 0).beneficiary_address = true →
      ((execute_auto_payments sBen 10 0 1000 (some true) (some true)).2.users
          (sBen.user_beneficiaries 10 0).beneficiary_address).total_received =
        (sBen.users (sBen.user_beneficiaries 10 0).beneficiary_address).total_received +
          ((sBen.user_beneficiaries 10 0).amount -
            platformFee sBen.platform_fee_percent (sBen.user_beneficiaries 10 0).amount))
  ∧ (execute_auto_payments sBen 10 0 1000 (some true) (some true)).2.execution_count =
      sBen.execution_count + 1 :=
  c6_execute_success_postconditions sBen 10 0 1000 (some true) (some true) rfl
    (by decide) (by decide) (by decide) (by decide) (by decide) (by decide) (by decide)
    (by decide) (by decide)

/-- C3: code bug, evaluated at the failing input.  Starting from a state
with one active beneficiary at index `0`, `remove_beneficiary 0` succeeds
(soft delete); afterwards a second `remove_beneficiary 0` does fail
`BeneficiaryNotFound`, but `get_beneficiary` on the same index still
succeeds, returning the record with `is_active = false` — it does not fail
`BeneficiaryNotFound` as the specification and the repository's own test
(`beneficiary_add_update_remove_and_get_pending_estimate`) require. -/
theorem c3_lookup_after_remove_code_bug :
    (remove_beneficiary sBen 10 0).1 = .ok ()
  ∧ remove_beneficiary ((remove_beneficiary sBen 10 0).2) 10 0 =
      (.error .beneficiaryNotFound, (remove_beneficiary sBen 10 0).2)
  ∧ get_beneficiary ((remove_beneficiary sBen 10 0).2) 10 0 =
      .ok { benActive with is_active := false }
  ∧ get_beneficiary ((remove_beneficiary sBen 10 0).2) 10 0 ≠
      .error .beneficiaryNotFound := by
  refine ⟨rfl, rfl, rfl, ?_⟩
  intro h
  rw [show get_beneficiary ((remove_beneficiary sBen 10 0).2) 10 0 =
        .ok { benActive with is_active := false } from rfl] at h
  exact Except.noConfusion h

end Remittance
